import Mathlib

/-!
# nx2create / nx2ensite / nx2dissite

A shallow embedding of the three command-line tools of the repository
(`src/go/nx2create/nx2create.go`, `src/go/nx2ensite/nx2ensite.go`,
`src/go/nx2dissite/nx2dissite.go`) and the properties of their validation,
rendering and enable/disable logic.

Go strings are embedded as Lean `String`s (sequences of Unicode scalar values,
that is, valid UTF-8 text).  Library routines the programs call
(`regexp`, `strconv.Atoi`, `strings.*`, `path/filepath`, `text/template`,
`os.*`) are modelled as far as the programs use them; the model of each one
says what it covers.
-/

namespace Nx2

/-! ## String helpers (`strings` package) -/

/-- Prefix test on lists (`strings.HasPrefix` on character lists). -/
def hasPrefix {α : Type} [DecidableEq α] : List α → List α → Bool
  | [], _ => true
  | _ :: _, [] => false
  | p :: ps, c :: cs => if p = c then hasPrefix ps cs else false

/-- Sublist test on lists (`strings.Contains` on character lists): the needle
occurs as a contiguous part. -/
def containsSub {α : Type} [DecidableEq α] (needle : List α) : List α → Bool
  | [] => hasPrefix needle []
  | c :: cs => if hasPrefix needle (c :: cs) then true else containsSub needle cs

/-- Go `strings.Contains(s, substr)`. -/
def stringsContains (s substr : String) : Bool :=
  containsSub substr.data s.data

/-- Go `unicode.IsSpace`: the white space characters of Unicode. -/
def isSpace (c : Char) : Bool :=
  c = '\t' || c = '\n' || c.toNat = 0x0B || c.toNat = 0x0C || c = '\r' || c = ' '
    || c.toNat = 0x85 || c.toNat = 0xA0 || c.toNat = 0x1680
    || (0x2000 ≤ c.toNat && c.toNat ≤ 0x200A)
    || c.toNat = 0x2028 || c.toNat = 0x2029 || c.toNat = 0x202F
    || c.toNat = 0x205F || c.toNat = 0x3000

/-- Go `strings.TrimSpace`: leading and trailing white space removed. -/
def trimSpace (s : String) : String :=
  ⟨((s.data.dropWhile isSpace).reverse.dropWhile isSpace).reverse⟩

/-- Lower-casing of one character; the ASCII letters, which are the only upper
case letters the programs compare against, are mapped as Go does. -/
def lowerChar (c : Char) : Char :=
  if 'A' ≤ c ∧ c ≤ 'Z' then Char.ofNat (c.toNat + 32) else c

/-- Go `strings.ToLower` on ASCII letters; other characters are kept, also the
upper case letters outside ASCII, which Go maps too.  None of those maps to a
letter of the words the programs compare the result with (`proxy`, `local`,
`http`, `https`, `y`), so every comparison has the outcome it has in Go; the
text differs from Go only where such a letter is copied on, as in a protocol
that the validation rejects. -/
def toLower (s : String) : String :=
  ⟨s.data.map lowerChar⟩

/-- Split a character list at every occurrence of the separator character. -/
def splitOnChar (sep : Char) : List Char → List (List Char)
  | [] => [[]]
  | c :: cs =>
    if c = sep then [] :: splitOnChar sep cs
    else
      match splitOnChar sep cs with
      | [] => [[c]]
      | p :: ps => (c :: p) :: ps

/-- Go `strings.Split(s, ".")`. -/
def splitDot (s : String) : List String :=
  (splitOnChar '.' s.data).map String.mk

/-! ## Regular expressions (`regexp` package) -/

/-- Regular expressions over characters, as far as the patterns of the
programs need them. -/
inductive Rx where
  | none : Rx
  | eps : Rx
  | cls : (Char → Bool) → Rx
  | cat : Rx → Rx → Rx
  | alt : Rx → Rx → Rx
  | star : Rx → Rx

namespace Rx

/-- Whether the expression matches the empty text. -/
def nullable : Rx → Bool
  | none => false
  | eps => true
  | cls _ => false
  | cat a b => a.nullable && b.nullable
  | alt a b => a.nullable || b.nullable
  | star _ => true

/-- Brzozowski derivative: what remains to be matched after reading `c`. -/
def deriv (c : Char) : Rx → Rx
  | none => none
  | eps => none
  | cls p => if p c then eps else none
  | cat a b => if a.nullable then alt (cat (a.deriv c) b) (b.deriv c) else cat (a.deriv c) b
  | alt a b => alt (a.deriv c) (b.deriv c)
  | star a => cat (a.deriv c) (star a)

/-- Whether the whole text matches (a pattern anchored by `^` and `$`). -/
def fullMatch (r : Rx) : List Char → Bool
  | [] => r.nullable
  | c :: cs => fullMatch (r.deriv c) cs

/-- One or more repetitions, `r+`. -/
def plus (r : Rx) : Rx := cat r (star r)

/-- Exactly `n` repetitions, `r{n}`. -/
def times (r : Rx) : Nat → Rx
  | 0 => eps
  | n + 1 => cat r (times r n)

/-- Between `lo` and `lo + extra` repetitions, `r{lo,lo+extra}`. -/
def between (r : Rx) (lo : Nat) : Nat → Rx
  | 0 => times r lo
  | extra + 1 => alt (times r (lo + extra + 1)) (between r lo extra)

/-- A single given character. -/
def chr (c : Char) : Rx := cls (fun x => x = c)

end Rx

/-- Character class `[a-zA-Z]`. -/
def isAlpha (c : Char) : Bool :=
  ('a' ≤ c && c ≤ 'z') || ('A' ≤ c && c ≤ 'Z')

/-- Character class `[0-9]` (Go's `\d`). -/
def isDigit (c : Char) : Bool :=
  '0' ≤ c && c ≤ '9'

/-- Character class `[a-zA-Z0-9.-]`. -/
def isNameChar (c : Char) : Bool :=
  isAlpha c || isDigit c || c = '.' || c = '-'

/-- Character class `[0-9a-fA-F]`. -/
def isHexDigit (c : Char) : Bool :=
  isDigit c || ('a' ≤ c && c ≤ 'f') || ('A' ≤ c && c ≤ 'F')

/-- The pattern `^[a-zA-Z0-9.-]+\.[a-zA-Z]{2,}$` of `validateParams`. -/
def siteNamePattern : Rx :=
  .cat (.plus (.cls isNameChar))
    (.cat (.chr '.') (.cat (.times (.cls isAlpha) 2) (.star (.cls isAlpha))))

/-- The pattern `^(\d{1,3}\.){3}\d{1,3}$` of `isIPAddress`. -/
def ipv4Pattern : Rx :=
  .cat (.times (.cat (.between (.cls isDigit) 1 2) (.chr '.')) 3)
    (.between (.cls isDigit) 1 2)

/-- The pattern
`^([0-9a-fA-F]{1,4}:){7}[0-9a-fA-F]{1,4}$|^([0-9a-fA-F]{1,4}:){1,7}:$|^::1$`
of `isIPAddress`. -/
def ipv6Pattern : Rx :=
  .alt
    (.cat (.times (.cat (.between (.cls isHexDigit) 1 3) (.chr ':')) 7)
      (.between (.cls isHexDigit) 1 3))
    (.alt
      (.cat (.between (.cat (.between (.cls isHexDigit) 1 3) (.chr ':')) 1 6) (.chr ':'))
      (.cat (.chr ':') (.cat (.chr ':') (.chr '1'))))

/-- Source `isIPAddress`: the input is an IPv4 or (simplified) IPv6 address. -/
def isIPAddress (input : String) : Bool :=
  ipv4Pattern.fullMatch input.data || ipv6Pattern.fullMatch input.data

/-! ## `strconv.Atoi` -/

/-- Decimal digits read left to right into an accumulator; `none` at the first
character that is not an ASCII digit. -/
def parseDigits : List Char → Nat → Option Nat
  | [], acc => some acc
  | c :: cs, acc => if isDigit c then parseDigits cs (acc * 10 + (c.toNat - 48)) else none

/-- Go `strconv.Atoi` on a 64-bit platform: an optional sign followed by one
or more ASCII digits, the value fitting in a signed 64-bit integer; `none`
stands for a non-nil error (syntax or range). -/
def atoi (s : String) : Option Int :=
  match s.data with
  | [] => none
  | c :: cs =>
    if c = '-' then
      if cs = [] then none
      else
        match parseDigits cs 0 with
        | some n => if n ≤ 2 ^ 63 then some (-(n : Int)) else none
        | none => none
    else if c = '+' then
      if cs = [] then none
      else
        match parseDigits cs 0 with
        | some n => if n < 2 ^ 63 then some (n : Int) else none
        | none => none
    else
      match parseDigits (c :: cs) 0 with
      | some n => if n < 2 ^ 63 then some (n : Int) else none
      | none => none

/-! ## Data model -/

/-- Source `ConfigData`: the template variables. -/
structure ConfigData where
  SiteName : String
  SiteHostName : String
  IPHostName : String
  PortUpstream : String
  FullchainPath : String
  PrivkeyPath : String
  Protocol : String
  deriving DecidableEq, Repr

/-- Outcome of `os.Stat` / `os.Lstat` as far as the programs inspect it:
success with the `IsDir` bit, an error for which `os.IsNotExist` holds, or any
other error. -/
inductive StatResult where
  | ok (isDir : Bool)
  | notExist
  | otherErr
  deriving DecidableEq, Repr

/-! ## `validateParams` -/

/-- Source `validateParams`: every violation of the record, in the order
the checks are made.  `stat` is `os.Stat` on the current filesystem. -/
def validateParams (stat : String → StatResult) (data : ConfigData) (siteType : String) :
    List String :=
  let errors : List String := []
  -- Validate site name (basic domain format: at least one dot, no spaces)
  let errors :=
    if data.SiteName = "" then errors ++ ["Site name is empty"]
    else if !siteNamePattern.fullMatch data.SiteName.data then
      errors ++ ["Invalid site name format (must be a valid domain, e.g., www.example.com)"]
    else errors
  -- Validate site hostname (must not be empty)
  let errors :=
    if data.SiteHostName = "" then
      errors ++ ["Site hostname could not be extracted from site name"]
    else errors
  -- Validate site type
  let errors :=
    if siteType ≠ "proxy" ∧ siteType ≠ "local" then
      errors ++ ["Site type must be 'proxy' or 'local'"]
    else errors
  -- Validate proxy-specific parameters
  let errors :=
    if siteType = "proxy" then
      let errors :=
        if data.IPHostName = "" then errors ++ ["Upstream hostname or IP is empty"]
        else if stringsContains data.IPHostName " " then
          errors ++ ["Upstream hostname or IP contains invalid characters (spaces)"]
        else errors
      let errors :=
        if data.PortUpstream = "" then errors ++ ["Upstream port is empty"]
        else
          match atoi data.PortUpstream with
          | none => errors ++ ["Upstream port must be a number between 1 and 65535"]
          | some port =>
            if port < 1 ∨ port > 65535 then
              errors ++ ["Upstream port must be a number between 1 and 65535"]
            else errors
      let errors :=
        if data.Protocol ≠ "http" ∧ data.Protocol ≠ "https" then
          errors ++ ["Protocol must be 'http' or 'https'"]
        else errors
      errors
    else errors
  -- Check certificate files
  let errors :=
    if data.FullchainPath = "" then errors ++ ["Certificate path is empty"]
    else if stat data.FullchainPath = .notExist then
      errors ++ ["Certificate file " ++ data.FullchainPath ++ " does not exist"]
    else
      match stat data.FullchainPath with
      | .ok false => errors
      | _ => errors ++ ["Certificate path " ++ data.FullchainPath ++ " is not a valid file"]
  let errors :=
    if data.PrivkeyPath = "" then errors ++ ["Private key path is empty"]
    else if stat data.PrivkeyPath = .notExist then
      errors ++ ["Private key file " ++ data.PrivkeyPath ++ " does not exist"]
    else
      match stat data.PrivkeyPath with
      | .ok false => errors
      | _ => errors ++ ["Private key path " ++ data.PrivkeyPath ++ " is not a valid file"]
  errors

/-! ## Paths (`path/filepath` package, Unix) -/

/-- The path elements kept by `filepath.Clean`, most recent first: empty and
`.` elements are dropped, `..` removes the preceding real element, is dropped
at the root, and is kept at the start of a relative path. -/
def cleanElems (rooted : Bool) : List (List Char) → List (List Char) → List (List Char)
  | [], acc => acc
  | e :: es, acc =>
    if e = [] ∨ e = ['.'] then cleanElems rooted es acc
    else if e = ['.', '.'] then
      match acc with
      | top :: below =>
        if top = ['.', '.'] then cleanElems rooted es (e :: acc)
        else cleanElems rooted es below
      | [] => if rooted then cleanElems rooted es [] else cleanElems rooted es [e]
    else cleanElems rooted es (e :: acc)

/-- Go `filepath.Clean`: the shortest path name equivalent to `path` by purely
lexical processing. -/
def filepathClean (path : String) : String :=
  match path.data with
  | [] => "."
  | c :: cs =>
    let rooted : Bool := c = '/'
    let elems := (cleanElems rooted (splitOnChar '/' (c :: cs)) []).reverse
    let body := List.intercalate ['/'] elems
    if rooted then ⟨'/' :: body⟩
    else if body = [] then "." else ⟨body⟩

/-- Go `filepath.Join`: the elements from the first non-empty one on, joined
by `/` and cleaned; the empty string when every element is empty. -/
def filepathJoin : List String → String
  | [] => ""
  | e :: es =>
    if e = "" then filepathJoin es
    else filepathClean ⟨List.intercalate ['/'] ((e :: es).map String.data)⟩

/-- Go `filepath.Dir`: all but the last element of the path, cleaned. -/
def filepathDir (path : String) : String :=
  filepathClean
    ⟨((path.data.reverse.dropWhile (fun c => decide (c ≠ '/')))).reverse⟩

/-! ## Filesystem -/

/-- What a path names.  `noAccess` stands for a path whose inspection fails
with an error other than "does not exist" (permission denied, for example). -/
inductive Node where
  | absent
  | file (content : String)
  | dir
  | symlink (target : String)
  | noAccess
  deriving DecidableEq, Repr

/-- A filesystem state: the node each path string names.  Paths are the
strings the programs pass to the system calls; directory contents and
permissions are not tracked. -/
abbrev FS := String → Node

/-- The state with the node at `p` replaced. -/
def FS.set (fs : FS) (p : String) (n : Node) : FS :=
  fun q => if q = p then n else fs q

/-- Where a symbolic link at `link` with the given target points: the target
itself when absolute, otherwise the target relative to the directory of the
link. -/
def linkDest (link target : String) : String :=
  match target.data with
  | '/' :: _ => filepathClean target
  | _ => filepathJoin [filepathDir link, target]

/-- Follow symbolic links from `p`, at most `fuel` of them: the path finally
named, or `none` when the chain is longer (the system call fails with
"too many levels of symbolic links"). -/
def followLinks (fs : FS) : Nat → String → Option String
  | 0, p =>
    match fs p with
    | .symlink _ => none
    | _ => some p
  | fuel + 1, p =>
    match fs p with
    | .symlink t => followLinks fs fuel (linkDest p t)
    | _ => some p

/-- The number of symbolic links a path resolution follows before it gives up
(Linux). -/
def maxSymlinks : Nat := 40

/-- Outcome of `os.Lstat`, which does not follow a final symbolic link. -/
def osLstat (fs : FS) (p : String) : StatResult :=
  if p = "" then .notExist
  else
    match fs p with
    | .absent => .notExist
    | .noAccess => .otherErr
    | .dir => .ok true
    | _ => .ok false

/-- Outcome of `os.Stat`, which follows symbolic links. -/
def osStat (fs : FS) (p : String) : StatResult :=
  if p = "" then .notExist
  else
    match followLinks fs maxSymlinks p with
    | none => .otherErr
    | some q =>
      match fs q with
      | .absent => .notExist
      | .noAccess => .otherErr
      | .dir => .ok true
      | _ => .ok false

/-- Outcome of `os.Readlink`: the target of the link, or the error text. -/
def osReadlink (fs : FS) (p : String) : Except String String :=
  match fs p with
  | .symlink t => .ok t
  | .absent => .error ("readlink " ++ p ++ ": no such file or directory")
  | .noAccess => .error ("readlink " ++ p ++ ": permission denied")
  | _ => .error ("readlink " ++ p ++ ": invalid argument")

/-- Outcome of `os.Symlink(oldname, newname)`: the new state, or the error
text when something already is at `newname`.  The directory that is to hold
the link is taken to exist: a state tracks no directory contents, and the
call does not look at the node of that directory. -/
def osSymlink (fs : FS) (oldname newname : String) : Except String FS :=
  match fs newname with
  | .absent => .ok (fs.set newname (.symlink oldname))
  | .noAccess => .error ("symlink " ++ oldname ++ " " ++ newname ++ ": permission denied")
  | _ => .error ("symlink " ++ oldname ++ " " ++ newname ++ ": file exists")

/-- Outcome of `os.Remove`: the new state, or the error text.  Files and links
are removed; a directory is removed only when empty, and the model, which
tracks no directory contents, lets that fail. -/
def osRemove (fs : FS) (p : String) : Except String FS :=
  match fs p with
  | .absent => .error ("remove " ++ p ++ ": no such file or directory")
  | .noAccess => .error ("remove " ++ p ++ ": permission denied")
  | .dir => .error ("remove " ++ p ++ ": directory not empty")
  | _ => .ok (fs.set p .absent)

/-- Outcome of `os.Create`: the path of the file opened for writing (the path
itself, or the end of the chain of links starting there), now empty, or the
error text.  The directory that is to hold the file is taken to exist: a
state tracks no directory contents, and the call does not look at the node
of that directory. -/
def osCreate (fs : FS) (p : String) : Except String (String × FS) :=
  match followLinks fs maxSymlinks p with
  | none => .error ("open " ++ p ++ ": too many levels of symbolic links")
  | some q =>
    match fs q with
    | .dir => .error ("open " ++ p ++ ": is a directory")
    | .noAccess => .error ("open " ++ p ++ ": permission denied")
    | _ => .ok (q, fs.set q (.file ""))

/-- The content read through path `p`, following links: `none` when `p` does
not lead to a regular file. -/
def readFile (fs : FS) (p : String) : Option String :=
  match followLinks fs maxSymlinks p with
  | none => none
  | some q =>
    match fs q with
    | .file c => some c
    | _ => none

/-! ## Templates (`text/template` package) -/

/-- Source `proxyTemplate`. -/
def proxyTemplate : String :=
  "upstream \x7b\x7b.SiteHostName\x7d\x7d \x7b
    server \x7b\x7b.IPHostName\x7d\x7d:\x7b\x7b.PortUpstream\x7d\x7d;
\x7d

server \x7b
    listen 80;
    server_name \x7b\x7b.SiteName\x7d\x7d;
    access_log /var/log/nginx/\x7b\x7b.SiteHostName\x7d\x7d_access.log;
    error_log /var/log/nginx/\x7b\x7b.SiteHostName\x7d\x7d_error.log;

    location / \x7b
        return 301 https://$host$request_uri;
    \x7d
\x7d

server \x7b
    listen 443 ssl;
    server_name \x7b\x7b.SiteName\x7d\x7d;
    access_log /var/log/nginx/\x7b\x7b.SiteHostName\x7d\x7d_access.log;
    error_log /var/log/nginx/\x7b\x7b.SiteHostName\x7d\x7d_error.log;

    ssl_certificate \"\x7b\x7b.FullchainPath\x7d\x7d\";
    ssl_certificate_key \"\x7b\x7b.PrivkeyPath\x7d\x7d\";
    ssl_session_timeout 10m;
    ssl_ciphers 'ECDHE-RSA-AES256-GCM-SHA384:ECDHE-RSA-AES128-GCM-SHA256:ECDHE-RSA-AES256-SHA384:ECDHE-RSA-AES128-SHA256';
    ssl_prefer_server_ciphers on;
    ssl_dhparam /etc/nginx/dhparam.pem;

    location / \x7b
        proxy_pass \x7b\x7b.Protocol\x7d\x7d://\x7b\x7b.SiteHostName\x7d\x7d;
        proxy_redirect off;
        proxy_buffering off;
        proxy_set_header Host $host;
        proxy_set_header X-Forwarded-For $proxy_add_x_forwarded_for;
        proxy_set_header X-Real-IP $remote_addr;
        proxy_set_header X-Forwarded-Proto $scheme;
    \x7d
\x7d"

/-- Source `localTemplate`. -/
def localTemplate : String :=
  "server \x7b
    listen 80;
    server_name \x7b\x7b.SiteName\x7d\x7d;
    access_log /var/log/nginx/\x7b\x7b.SiteHostName\x7d\x7d_access.log;
    error_log /var/log/nginx/\x7b\x7b.SiteHostName\x7d\x7d_error.log;

    location / \x7b
        return 301 https://$host$request_uri;
    \x7d
\x7d

server \x7b
    listen 443 ssl;
    server_name \x7b\x7b.SiteName\x7d\x7d;
    access_log /var/log/nginx/\x7b\x7b.SiteHostName\x7d\x7d_access.log;
    error_log /var/log/nginx/\x7b\x7b.SiteHostName\x7d\x7d_error.log;

    ssl_certificate \"\x7b\x7b.FullchainPath\x7d\x7d\";
    ssl_certificate_key \"\x7b\x7b.PrivkeyPath\x7d\x7d\";
    ssl_session_timeout 10m;
    ssl_ciphers 'ECDHE-RSA-AES256-GCM-SHA384:ECDHE-RSA-AES128-GCM-SHA256:ECDHE-RSA-AES256-SHA384:ECDHE-RSA-AES128-SHA256';
    ssl_prefer_server_ciphers on;
    ssl_dhparam /etc/nginx/dhparam.pem;

    root /var/www/\x7b\x7b.SiteHostName\x7d\x7d;
    index index.html index.htm;

    location / \x7b
        try_files $uri $uri/ /index.html;
    \x7d
\x7d"

/-- A parsed template: literal text and field actions. -/
inductive Piece where
  | text (s : String)
  | field (name : String)
  deriving DecidableEq, Repr

/-- State of the template lexer: in literal text (with the text read so far,
most recent character first), after one opening brace, after the opening
delimiter, in a field name, after one closing brace. -/
inductive LexState where
  | text (acc : List Char)
  | open1 (acc : List Char)
  | start
  | name (acc : List Char)
  | close1 (acc : List Char)

/-- The text piece for the characters read so far, if any. -/
def flushText (acc : List Char) : List Piece :=
  if acc = [] then [] else [.text ⟨acc.reverse⟩]

/-- Characters of a field name. -/
def isIdentChar (c : Char) : Bool :=
  isAlpha c || isDigit c || c = '_'

/-- The template lexer and parser for the template language the programs use:
literal text and the action "field of the data", written with the delimiters
of `text/template`; `none` for anything else (a parse error). -/
def lexTemplate : List Char → LexState → Option (List Piece)
  | [], .text acc => some (flushText acc)
  | [], .open1 acc => some (flushText ('\x7b' :: acc))
  | [], _ => none
  | c :: cs, .text acc =>
    if c = '\x7b' then lexTemplate cs (.open1 acc) else lexTemplate cs (.text (c :: acc))
  | c :: cs, .open1 acc =>
    if c = '\x7b' then (lexTemplate cs .start).map (fun ps => flushText acc ++ ps)
    else lexTemplate cs (.text (c :: '\x7b' :: acc))
  | c :: cs, .start =>
    if c = '.' then lexTemplate cs (.name []) else none
  | c :: cs, .name acc =>
    if c = '\x7d' then (if acc = [] then none else lexTemplate cs (.close1 acc))
    else if isIdentChar c then lexTemplate cs (.name (c :: acc))
    else none
  | c :: cs, .close1 acc =>
    if c = '\x7d' then (lexTemplate cs (.text [])).map (fun ps => .field ⟨acc.reverse⟩ :: ps)
    else none

/-- Go `template.New("nginx").Parse(tmplContent)`. -/
def parseTemplate (tmplContent : String) : Option (List Piece) :=
  lexTemplate tmplContent.data (.text [])

/-- The value of a field of `ConfigData` by name; `none` when the record has
no such field (an execution error). -/
def lookupField (data : ConfigData) (name : String) : Option String :=
  if name = "SiteName" then some data.SiteName
  else if name = "SiteHostName" then some data.SiteHostName
  else if name = "IPHostName" then some data.IPHostName
  else if name = "PortUpstream" then some data.PortUpstream
  else if name = "FullchainPath" then some data.FullchainPath
  else if name = "PrivkeyPath" then some data.PrivkeyPath
  else if name = "Protocol" then some data.Protocol
  else none

/-- Go `tmpl.Execute(file, data)`: the text written to the file, appended to
what is already there, and whether the execution ran to the end.  String
fields are written as they are (`text/template` does no escaping). -/
def executeTemplate : List Piece → ConfigData → String → String × Bool
  | [], _, written => (written, true)
  | .text s :: ps, data, written => executeTemplate ps data (written ++ s)
  | .field n :: ps, data, written =>
    match lookupField data n with
    | some v => executeTemplate ps data (written ++ v)
    | none => (written, false)

/-- The template the create flow selects for a site type: the proxy template
for `proxy`, the local template otherwise. -/
def selectTemplate (siteType : String) : String :=
  if siteType = "proxy" then proxyTemplate else localTemplate

/-- Rendering as the create flow does it: parse the selected template and
execute it on the record; `none` when parsing or execution fails. -/
def render (data : ConfigData) (siteType : String) : Option String :=
  match parseTemplate (selectTemplate siteType) with
  | none => none
  | some pieces =>
    match executeTemplate pieces data "" with
    | (text, true) => some text
    | (_, false) => none

/-! ## Process environment -/

/-- Outcome of running an external command: success, or failure with the text
of the Go error value and the text the command wrote to standard error. -/
inductive CmdResult where
  | ok
  | failed (err : String) (stderr : String)
  deriving DecidableEq, Repr

/-- An external command a program starts: `nginx -t`, `systemctl reload nginx`,
or the helper `nx2ensite` with its arguments. -/
inductive Cmd where
  | nginxTest
  | reloadNginx
  | ensite (args : List String)
  deriving DecidableEq, Repr

/-- The surroundings of a run that the programs do not control: what
`nginx -t` and `systemctl reload nginx` answer in a given filesystem state,
whether the helper `nx2ensite` is found on the search path, and the diagnostic
text the `flag` package writes for a command line it rejects. -/
structure Env where
  nginxTest : FS → CmdResult
  reload : FS → CmdResult
  ensiteOnPath : Bool
  flagDiag : List String → String

/-- How a run ends: the exit status, the filesystem state left behind, what
was written to standard output (one entry per print call) and the external
commands started, in order. -/
structure Outcome where
  exit : Nat
  fs : FS
  out : List String
  cmds : List Cmd

/-- One `scanner.Scan()` followed by `scanner.Text()` on standard input given
as its remaining lines: the next line, or the empty text at end of input. -/
def scanLine : List String → String × List String
  | [] => ("", [])
  | l :: ls => (l, ls)

/-! ## `nx2ensite` -/

namespace Ensite

/-- The flags of `nx2ensite` with their defaults. -/
structure Flags where
  help : Bool := false
  configDir : String := "/etc/nginx"
  force : Bool := false
  deriving DecidableEq, Repr

/-- The usage text of `nx2ensite`. -/
def usage : List String :=
  [
    "Usage: nx2ensite [--config-dir=<path>] [-f] <site_name>\n",
    "Enable a site in Nginx by creating a symbolic link from sites-available to sites-enabled.\n",
    "\nOptions:\n",
    "  --config-dir=<path>  Specify the Nginx configuration directory (default: /etc/nginx)\n",
    "  -f                   Force Nginx reload without prompting if site is already enabled\n",
    "  --help               Display this help message\n",
    "\nExample:\n",
    "  nx2ensite example\n",
    "  nx2ensite --config-dir=/custom/nginx -f example\n"]

/-- Source `checkSiteEnabled` of `nx2ensite`: whether the link at
`sitesEnabled` exists and its cleaned target equals the cleaned
`sitesAvailable`; an error when something exists there that cannot be read as
a link. -/
def checkSiteEnabled (fs : FS) (sitesAvailable sitesEnabled : String) : Except String Bool :=
  -- Check if the symbolic link exists
  if osLstat fs sitesEnabled = .notExist then .ok false
  else
    -- Read the symbolic link target
    match osReadlink fs sitesEnabled with
    | .error e => .error ("failed to read symbolic link: " ++ e)
    | .ok target =>
      -- Compare the target with the sites-available path
      .ok (decide (filepathClean target = filepathClean sitesAvailable))

/-- Source `promptReload`: ask whether to reload, read one line from a fresh
scanner; the printed prompt and the answer. -/
def promptReload (site : String) (stdin : List String) : String × Bool :=
  let response := toLower (trimSpace (scanLine stdin).1)
  ("Site " ++ site ++ " is already enabled. Do you want to reload Nginx? (y/n): ",
    decide (response = "y" ∨ response = "yes"))

/-- The end of `main` of `nx2ensite`: test the configuration again, then
reload. -/
def testAndReload (env : Env) (fs : FS) (out : List String) (cmds : List Cmd) : Outcome :=
  match env.nginxTest fs with
  | .failed _ stderr =>
    ⟨5, fs, out ++ ["Error: Nginx configuration test failed after enabling site. Details:\n",
      stderr ++ "\n"], cmds ++ [.nginxTest]⟩
  | .ok =>
    match env.reload fs with
    | .failed err _ =>
      ⟨6, fs, out ++ ["Error: Failed to reload Nginx: " ++ err ++ "\n"],
        cmds ++ [.nginxTest, .reloadNginx]⟩
    | .ok => ⟨0, fs, out ++ ["Nginx reloaded successfully.\n"], cmds ++ [.nginxTest, .reloadNginx]⟩

/-- Source `main` of `nx2ensite`, after flag parsing: `args` are the non-flag
arguments. -/
def main (env : Env) (flags : Flags) (args : List String) (fs : FS) (stdin : List String) :
    Outcome :=
  match args with
  | [] => ⟨0, fs, usage, []⟩
  | site :: _ =>
    if flags.help then ⟨0, fs, usage, []⟩
    else
      -- Construct paths
      let sitesAvailable := filepathJoin [flags.configDir, "sites-available", site ++ ".conf"]
      let sitesEnabled := filepathJoin [flags.configDir, "sites-enabled", site ++ ".conf"]
      -- Check if configuration directory exists
      if osStat fs flags.configDir = .notExist then
        ⟨1, fs, ["Error: Configuration directory " ++ flags.configDir ++ " does not exist.\n"], []⟩
      -- Check if site configuration file exists
      else if osStat fs sitesAvailable = .notExist then
        ⟨2, fs, ["Error: Configuration file " ++ sitesAvailable ++ " not found.\n"], []⟩
      else
        -- Test Nginx configuration
        match env.nginxTest fs with
        | .failed _ stderr =>
          ⟨3, fs, ["Error: Nginx configuration test failed. Details:\n", stderr ++ "\n"],
            [.nginxTest]⟩
        | .ok =>
          -- Check if site is already enabled
          match checkSiteEnabled fs sitesAvailable sitesEnabled with
          | .error e => ⟨4, fs, ["Error: " ++ e ++ "\n"], [.nginxTest]⟩
          | .ok true =>
            let out := ["Warning: Site " ++ site ++ " is already enabled in sites-enabled.\n"]
            if flags.force then testAndReload env fs out [.nginxTest]
            else
              let (prompt, yes) := promptReload site stdin
              if yes then testAndReload env fs (out ++ [prompt]) [.nginxTest]
              else ⟨0, fs, out ++ [prompt, "Nginx reload skipped.\n"], [.nginxTest]⟩
          | .ok false =>
            -- Create symbolic link
            match osSymlink fs sitesAvailable sitesEnabled with
            | .error e =>
              ⟨4, fs, ["Error: Failed to create symbolic link: " ++ e ++ "\n"], [.nginxTest]⟩
            | .ok fs1 =>
              testAndReload env fs1 ["Site " ++ site ++ " enabled successfully.\n"] [.nginxTest]

/-- Go `strconv.ParseBool`, as the `flag` package applies it to the value of a
boolean flag. -/
def parseBool (s : String) : Option Bool :=
  if s = "1" ∨ s = "t" ∨ s = "T" ∨ s = "TRUE" ∨ s = "true" ∨ s = "True" then some true
  else if s = "0" ∨ s = "f" ∨ s = "F" ∨ s = "FALSE" ∨ s = "false" ∨ s = "False" then some false
  else none

/-- What the command line parses to: the flags and the remaining arguments,
a request for help (exit status 0), or a rejected command line (exit
status 2). -/
inductive Parsed where
  | ok (flags : Flags) (args : List String)
  | help
  | bad
  deriving DecidableEq, Repr

/-- Split a flag body at its first `=` that is not the first character: the
name, and the value if there is one. -/
def splitFlag (body : List Char) : List Char × Option (List Char) :=
  match body with
  | [] => ([], none)
  | c :: cs =>
    match splitOnChar '=' cs with
    | [] => (c :: cs, none)
    | [n] => (c :: n, none)
    | n :: v :: more => (c :: n, some (List.intercalate ['='] (v :: more)))

/-- Go `flag.Parse` for the three flags of `nx2ensite` (`help`, `config-dir`,
`f`): flags are read up to the first argument that is not one. -/
def parseArgs : List String → Flags → Parsed
  | [], flags => .ok flags []
  | s :: rest, flags =>
    match s.data with
    | '-' :: c :: cs =>
      if c = '-' ∧ cs = [] then .ok flags rest
      else
        let body := if c = '-' then cs else c :: cs
        match body with
        | [] => .bad
        | b :: _ =>
          if b = '-' ∨ b = '=' then .bad
          else
            let (name, value) := splitFlag body
            if name = "help".data then
              match value with
              | none => parseArgs rest { flags with help := true }
              | some v =>
                match parseBool ⟨v⟩ with
                | some x => parseArgs rest { flags with help := x }
                | none => .bad
            else if name = "f".data then
              match value with
              | none => parseArgs rest { flags with force := true }
              | some v =>
                match parseBool ⟨v⟩ with
                | some x => parseArgs rest { flags with force := x }
                | none => .bad
            else if name = "config-dir".data then
              match value with
              | some v => parseArgs rest { flags with configDir := ⟨v⟩ }
              | none =>
                match rest with
                | [] => .bad
                | v :: rest2 => parseArgs rest2 { flags with configDir := v }
            else if name = "h".data then .help
            else .bad
    | _ => .ok flags (s :: rest)

/-- The program `nx2ensite` started with the given arguments: the outcome, and
the text written to standard error. -/
def run (env : Env) (argv : List String) (fs : FS) (stdin : List String) : Outcome × String :=
  match parseArgs argv {} with
  | .ok flags args => (main env flags args fs stdin, "")
  | .help => (⟨0, fs, [], []⟩, env.flagDiag argv)
  | .bad => (⟨2, fs, [], []⟩, env.flagDiag argv)

end Ensite

/-! ## `nx2dissite` -/

namespace Dissite

/-- The flags of `nx2dissite` with their defaults. -/
structure Flags where
  help : Bool := false
  configDir : String := "/etc/nginx"
  deriving DecidableEq, Repr

/-- The usage text of `nx2dissite`. -/
def usage : List String :=
  [
    "Usage: nx2dissite2 [--config-dir=<path>] <site_name>\n",
    "Disable a site in Nginx by removing its symbolic link from sites-enabled.\n",
    "\nOptions:\n",
    "  --config-dir=<path>  Specify the Nginx configuration directory (default: /etc/nginx)\n",
    "  --help               Display this help message\n",
    "\nExample:\n",
    "  nx2dissite2 example\n",
    "  nx2dissite2 --config-dir=/custom/nginx example\n"]

/-- Source `checkSiteEnabled` of `nx2dissite`: whether anything is at
`sitesEnabled` (the link itself is inspected, not its target); an error when
the inspection fails otherwise. -/
def checkSiteEnabled (fs : FS) (sitesEnabled : String) : Except String Bool :=
  match osLstat fs sitesEnabled with
  | .notExist => .ok false
  | .otherErr =>
    .error ("failed to check symbolic link: lstat " ++ sitesEnabled ++ ": permission denied")
  | .ok _ => .ok true

/-- Source `main` of `nx2dissite`, after flag parsing: `args` are the non-flag
arguments. -/
def main (env : Env) (flags : Flags) (args : List String) (fs : FS) : Outcome :=
  match args with
  | [] => ⟨0, fs, usage, []⟩
  | site :: _ =>
    if flags.help then ⟨0, fs, usage, []⟩
    else
      -- Construct paths
      let sitesEnabled := filepathJoin [flags.configDir, "sites-enabled", site ++ ".conf"]
      -- Check if configuration directory exists
      if osStat fs flags.configDir = .notExist then
        ⟨1, fs, ["Error: Configuration directory " ++ flags.configDir ++ " does not exist.\n"], []⟩
      else
        -- Check if site is enabled
        match checkSiteEnabled fs sitesEnabled with
        | .error e => ⟨2, fs, ["Error: " ++ e ++ "\n"], []⟩
        | .ok false =>
          ⟨2, fs, ["Error: Site " ++ site ++
            " is not enabled or the symbolic link does not exist.\n"], []⟩
        | .ok true =>
          -- Remove the symbolic link
          match osRemove fs sitesEnabled with
          | .error e => ⟨3, fs, ["Error: Failed to remove symbolic link: " ++ e ++ "\n"], []⟩
          | .ok fs1 =>
            let out := ["Site " ++ site ++ " disabled successfully.\n"]
            -- Test Nginx configuration
            match env.nginxTest fs1 with
            | .failed _ stderr =>
              ⟨4, fs1, out ++ ["Error: Nginx configuration test failed. Details:\n",
                stderr ++ "\n"], [.nginxTest]⟩
            | .ok =>
              -- Reload Nginx
              match env.reload fs1 with
              | .failed err _ =>
                ⟨5, fs1, out ++ ["Error: Failed to reload Nginx: " ++ err ++ "\n"],
                  [.nginxTest, .reloadNginx]⟩
              | .ok =>
                ⟨0, fs1, out ++ ["Nginx reloaded successfully.\n"], [.nginxTest, .reloadNginx]⟩

end Dissite

/-! ## `nx2create` -/

namespace Create

/-- The flags of `nx2create` with their defaults. -/
structure Flags where
  help : Bool := false
  configDir : String := "/etc/nginx"
  siteName : String := ""
  siteType : String := ""
  upstreamHost : String := ""
  upstreamPort : String := ""
  proxyProtocol : String := ""
  fullchainPath : String := ""
  privkeyPath : String := ""
  deriving DecidableEq, Repr

/-- The usage text of `nx2create`. -/
def usage : List String :=
  [
    "Usage: nx2createsite [--config-dir=<path>] [--site-name=<name>] [--site-type=<type>] [--upstream-host=<host>] [--upstream-port=<port>] [--proxy-protocol=<protocol>] [--fullchain-path=<path>] [--privkey-path=<path>]\n",
    "Create an Nginx site configuration in sites-available using the hostname (e.g., teste.conf for teste.tjap.jus.br).\n",
    "\nOptions:\n",
    "  --config-dir=<path>      Specify the Nginx configuration directory (default: /etc/nginx)\n",
    "  --site-name=<name>      Full site name (e.g., www.example.com)\n",
    "  --site-type=<type>      Site type (proxy or local)\n",
    "  --upstream-host=<host>  Upstream hostname or IP for proxy sites\n",
    "  --upstream-port=<port>  Upstream port for proxy sites\n",
    "  --proxy-protocol=<protocol>  Proxy protocol for proxy sites (http or https)\n",
    "  --fullchain-path=<path> Path to fullchain certificate file (default: /opt/certs/fullchain.pem)\n",
    "  --privkey-path=<path>   Path to private key file (default: /opt/certs/privkey.pem)\n",
    "  --help                  Display this help message\n",
    "\nInteractive Mode Example:\n",
    "  nx2createsite --config-dir=/custom/nginx\n",
    "  # Prompts for site name, type, upstream details, certificate paths, and reload\n",
    "\nNon-Interactive Mode Examples:\n",
    "  # Proxy site:\n",
    "  nx2createsite --site-name=teste.tjap.jus.br --site-type=proxy --upstream-host=192.168.1.100 --upstream-port=8080 --proxy-protocol=https --fullchain-path=/opt/certs/teste.pem --privkey-path=/opt/certs/teste.key\n",
    "  # Local site with defaults for certs:\n",
    "  nx2createsite --site-name=local.tjap.jus.br --site-type=local\n",
    "\nNotes:\n",
    "  - Config file uses hostname (e.g., teste.conf for teste.tjap.jus.br).\n",
    "  - For proxy sites, ensure upstream hostname is resolvable via /etc/hosts or DNS.\n",
    "  - Reload only occurs if all parameters are valid and certificates exist, followed by nx2ensite.\n",
    "  - If the config file already exists, interactive mode prompts to overwrite; non-interactive mode fails.\n",
    "  - In interactive mode, press Enter to use default certificate paths.\n"]

/-- The host name `main` extracts from the site name: the first of the parts
between dots when the name is non-empty and has at least two parts, the empty
text otherwise. -/
def hostNameOf (siteName : String) : String :=
  if siteName ≠ "" then
    match splitDot siteName with
    | p0 :: _ :: _ => p0
    | _ => ""
  else ""

/-- The record `main` starts from: only the protocol has a default. -/
def initialData : ConfigData :=
  { SiteName := "", SiteHostName := "", IPHostName := "", PortUpstream := "",
    FullchainPath := "", PrivkeyPath := "", Protocol := "http" }

/-- Where `main` takes the site name from: the flag, or a prompt.  Returns the
name, the remaining input and the prompt printed. -/
def readSiteName (flags : Flags) (stdin : List String) : String × List String × List String :=
  if flags.siteName ≠ "" then (flags.siteName, stdin, [])
  else
    (trimSpace (scanLine stdin).1, (scanLine stdin).2,
      ["Enter the full site name (e.g., www.example.com): "])

/-- What `main` has collected before validation: the site type, the record,
the remaining input and the text printed. -/
structure Collected where
  siteType : String
  data : ConfigData
  stdin : List String
  out : List String

/-- The site type: the flag in lower case, or a prompt. -/
def readSiteType (flags : Flags) (c : Collected) : Collected :=
  if flags.siteType ≠ "" then { c with siteType := toLower flags.siteType }
  else
    { c with
      siteType := toLower (trimSpace (scanLine c.stdin).1)
      stdin := (scanLine c.stdin).2
      out := c.out ++ ["Is this a proxy or local site? (proxy/local): "] }

/-- The upstream host of a proxy site (flag or prompt), with the warning
printed for a host that is not an IP address. -/
def readUpstreamHost (flags : Flags) (c : Collected) : Collected :=
  let c1 : Collected :=
    if flags.upstreamHost ≠ "" then { c with data := { c.data with IPHostName := flags.upstreamHost } }
    else
      { c with
        data := { c.data with IPHostName := trimSpace (scanLine c.stdin).1 }
        stdin := (scanLine c.stdin).2
        out := c.out ++ ["Enter the upstream hostname or IP: "] }
  -- Check if IPHostName is a hostname (not an IP)
  if c1.data.IPHostName ≠ "" ∧ isIPAddress c1.data.IPHostName = false then
    { c1 with out := c1.out ++ ["Warning: Upstream hostname " ++ c1.data.IPHostName ++
        " must be resolvable. Update /etc/hosts or configure DNS for the site to function properly.\n"] }
  else c1

/-- The upstream port of a proxy site (flag or prompt). -/
def readUpstreamPort (flags : Flags) (c : Collected) : Collected :=
  if flags.upstreamPort ≠ "" then { c with data := { c.data with PortUpstream := flags.upstreamPort } }
  else
    { c with
      data := { c.data with PortUpstream := trimSpace (scanLine c.stdin).1 }
      stdin := (scanLine c.stdin).2
      out := c.out ++ ["Enter the upstream port: "] }

/-- The protocol of a proxy site, in lower case (flag or prompt). -/
def readProtocol (flags : Flags) (c : Collected) : Collected :=
  if flags.proxyProtocol ≠ "" then
    { c with data := { c.data with Protocol := toLower flags.proxyProtocol } }
  else
    { c with
      data := { c.data with Protocol := toLower (trimSpace (scanLine c.stdin).1) }
      stdin := (scanLine c.stdin).2
      out := c.out ++ ["Use http or https for proxy_pass? (http/https): "] }

/-- The fullchain certificate path: the flag, or a prompt with the default
`/opt/certs/fullchain.pem` for an empty answer. -/
def readFullchain (flags : Flags) (c : Collected) : Collected :=
  if flags.fullchainPath ≠ "" then
    { c with data := { c.data with FullchainPath := flags.fullchainPath } }
  else
    let answer := trimSpace (scanLine c.stdin).1
    { c with
      data := { c.data with
        FullchainPath := if answer = "" then "/opt/certs/fullchain.pem" else answer }
      stdin := (scanLine c.stdin).2
      out := c.out ++
        ["Enter the fullchain certificate path (default: /opt/certs/fullchain.pem): "] }

/-- The private key path: the flag, or a prompt with the default
`/opt/certs/privkey.pem` for an empty answer. -/
def readPrivkey (flags : Flags) (c : Collected) : Collected :=
  if flags.privkeyPath ≠ "" then
    { c with data := { c.data with PrivkeyPath := flags.privkeyPath } }
  else
    let answer := trimSpace (scanLine c.stdin).1
    { c with
      data := { c.data with
        PrivkeyPath := if answer = "" then "/opt/certs/privkey.pem" else answer }
      stdin := (scanLine c.stdin).2
      out := c.out ++ ["Enter the private key path (default: /opt/certs/privkey.pem): "] }

/-- The part of `main` between the check for an existing file and the
validation: site type, the proxy parameters of a proxy site, and the two
certificate paths. -/
def collect (flags : Flags) (data : ConfigData) (stdin : List String) (out : List String) :
    Collected :=
  let c := readSiteType flags ⟨"", data, stdin, out⟩
  let c :=
    if c.siteType = "proxy" then readProtocol flags (readUpstreamPort flags (readUpstreamHost flags c))
    else c
  readPrivkey flags (readFullchain flags c)

/-- The error text of a template that does not parse. -/
def parseErrorText : String := "template: nginx: parse error"

/-- The error text of a template execution that stops at a field the record
does not have. -/
def execErrorText : String := "template: nginx: can not evaluate field"

/-- The writing of the config file in `main` (parse the template, create the
file, execute the template into it): the new filesystem state and the text
printed, or the outcome of the run when a step fails. -/
def writeConfig (fs : FS) (configPath siteType : String) (data : ConfigData)
    (out : List String) : Except Outcome (FS × List String) :=
  match parseTemplate (selectTemplate siteType) with
  | none => .error ⟨3, fs, out ++ ["Error: Failed to parse template: " ++ parseErrorText ++ "\n"], []⟩
  | some pieces =>
    match osCreate fs configPath with
    | .error e =>
      .error ⟨4, fs, out ++ ["Error: Failed to create config file " ++ configPath ++ ": " ++ e
        ++ "\n"], []⟩
    | .ok (opened, fs1) =>
      match executeTemplate pieces data "" with
      | (written, false) =>
        .error ⟨4, fs1.set opened (.file written),
          out ++ ["Error: Failed to write config file: " ++ execErrorText ++ "\n"], []⟩
      | (written, true) =>
        .ok (fs1.set opened (.file written),
          out ++ ["Configuration file created: " ++ configPath ++ "\n"])

/-- The text of the Go error for a command that ends with a non-zero exit
status. -/
def exitStatusText (code : Nat) : String :=
  "exit status " ++ toString code

/-- The end of `main`: run `nx2ensite` for the host, test the configuration,
reload.  The helper is started without flags, with no standard input. -/
def enableAndReload (env : Env) (fs : FS) (host : String) (out : List String) : Outcome :=
  -- Run nx2ensite to enable the site
  if env.ensiteOnPath = false then
    ⟨5, fs, out ++ ["Error: Failed to enable site with nx2ensite: " ++
      "exec: \"nx2ensite\": executable file not found in $PATH" ++ "\n", "\n"], [.ensite [host]]⟩
  else
    let helper := Ensite.run env [host] fs []
    if helper.1.exit ≠ 0 then
      ⟨5, helper.1.fs, out ++ ["Error: Failed to enable site with nx2ensite: " ++
        exitStatusText helper.1.exit ++ "\n", helper.2 ++ "\n"], [.ensite [host]]⟩
    else
      let fs1 := helper.1.fs
      let out := out ++ ["Site " ++ host ++ " enabled successfully.\n"]
      -- Test Nginx configuration
      match env.nginxTest fs1 with
      | .failed _ stderr =>
        ⟨6, fs1, out ++ ["Error: Nginx configuration test failed. Details:\n", stderr ++ "\n"],
          [.ensite [host], .nginxTest]⟩
      | .ok =>
        -- Reload Nginx
        match env.reload fs1 with
        | .failed err _ =>
          ⟨7, fs1, out ++ ["Error: Failed to reload Nginx: " ++ err ++ "\n"],
            [.ensite [host], .nginxTest, .reloadNginx]⟩
        | .ok =>
          ⟨0, fs1, out ++ ["Nginx reloaded successfully.\n"],
            [.ensite [host], .nginxTest, .reloadNginx]⟩

/-- The part of `main` from the validation on: validate, write the config
file in either case, stop after the list of violations if there are any,
otherwise ask (in interactive mode) and enable. -/
def validateAndWrite (env : Env) (flags : Flags) (fs : FS) (configPath : String)
    (c : Collected) : Outcome :=
  -- Validate parameters
  let errors := validateParams (osStat fs) c.data c.siteType
  if errors ≠ [] then
    -- Write config file even if there are errors
    match writeConfig fs configPath c.siteType c.data c.out with
    | .error o => o
    | .ok (fs1, out) =>
      ⟨0, fs1, out ++ ["Cannot reload Nginx due to the following issues:\n"] ++
        errors.map (fun e => "- " ++ e ++ "\n") ++
        ["Please fix the parameters and use nx2ensite to enable the site.\n"], []⟩
  else
    -- Write config file
    match writeConfig fs configPath c.siteType c.data c.out with
    | .error o => o
    | .ok (fs1, out) =>
      -- Prompt for reload (only in interactive mode)
      let nonInteractive : Bool :=
        flags.siteName ≠ "" ∧ flags.siteType ≠ "" ∧
          (flags.fullchainPath ≠ "" ∨ c.siteType ≠ "proxy") ∧
          (flags.privkeyPath ≠ "" ∨ c.siteType ≠ "proxy")
      if nonInteractive then enableAndReload env fs1 c.data.SiteHostName out
      else
        let out := out ++ ["Do you want to enable the site and reload Nginx? (y/n): "]
        if toLower (trimSpace (scanLine c.stdin).1) ≠ "y" then
          ⟨0, fs1, out ++ ["Nginx reload skipped. Use nx2ensite to enable the site.\n"], []⟩
        else enableAndReload env fs1 c.data.SiteHostName out

/-- The first part of `main`, up to the validation: help, the check of the
configuration directory, the site name and host name, the check for an
existing config file (fail in non-interactive mode, ask in interactive mode)
and the collection of the remaining parameters.  Returns the path of the
config file and what was collected, or the outcome of a run that stops
here. -/
def prepare (flags : Flags) (fs : FS) (stdin : List String) :
    Except Outcome (String × Collected) :=
  -- Display help if --help is passed
  if flags.help then .error ⟨0, fs, usage, []⟩
  -- Check if configuration directory exists
  else if osStat fs flags.configDir = .notExist then
    .error ⟨1, fs,
      ["Error: Configuration directory " ++ flags.configDir ++ " does not exist.\n"], []⟩
  else
    -- Use flags if provided, otherwise prompt
    let (siteName, stdin, out) := readSiteName flags stdin
    -- Extract hostname (e.g., teste from teste.tjap.jus.br)
    let data : ConfigData :=
      { initialData with SiteName := siteName, SiteHostName := hostNameOf siteName }
    -- Check if config file already exists
    let configPath := filepathJoin [flags.configDir, "sites-available", data.SiteHostName ++ ".conf"]
    match osStat fs configPath with
    | .ok _ =>
      -- File exists, check if non-interactive mode
      let nonInteractive : Bool :=
        flags.siteName ≠ "" ∧ flags.siteType ≠ "" ∧
          (flags.fullchainPath ≠ "" ∨ flags.siteType ≠ "proxy") ∧
          (flags.privkeyPath ≠ "" ∨ flags.siteType ≠ "proxy")
      if nonInteractive then
        .error ⟨2, fs, out ++ ["Error: Configuration file " ++ configPath ++
          " already exists. Remove it or choose a different site name.\n"], []⟩
      else
        -- Interactive mode: prompt to overwrite
        let out := out ++ ["Configuration file " ++ configPath ++
          " already exists. Do you want to reconfigure it? (y/n): "]
        if toLower (trimSpace (scanLine stdin).1) ≠ "y" then
          .error ⟨0, fs, out ++ ["Operation canceled. No changes made.\n"], []⟩
        else .ok (configPath, collect flags data (scanLine stdin).2 out)
    | _ => .ok (configPath, collect flags data stdin out)

/-- Source `main` of `nx2create`, after flag parsing. -/
def main (env : Env) (flags : Flags) (fs : FS) (stdin : List String) : Outcome :=
  match prepare flags fs stdin with
  | .error o => o
  | .ok (configPath, c) => validateAndWrite env flags fs configPath c

end Create

/-! ## The checks of `validateParams`, one by one -/

/-- The violations of the site name check of `validateParams`. -/
def siteNameErrors (d : ConfigData) : List String :=
  if d.SiteName = "" then ["Site name is empty"]
  else if !siteNamePattern.fullMatch d.SiteName.data then
    ["Invalid site name format (must be a valid domain, e.g., www.example.com)"]
  else []

/-- The violations of the site host name check of `validateParams`. -/
def hostNameErrors (d : ConfigData) : List String :=
  if d.SiteHostName = "" then ["Site hostname could not be extracted from site name"] else []

/-- The violations of the site type check of `validateParams`. -/
def siteTypeErrors (siteType : String) : List String :=
  if siteType ≠ "proxy" ∧ siteType ≠ "local" then ["Site type must be 'proxy' or 'local'"] else []

/-- The violations of the upstream host check of `validateParams`. -/
def upstreamHostErrors (d : ConfigData) : List String :=
  if d.IPHostName = "" then ["Upstream hostname or IP is empty"]
  else if stringsContains d.IPHostName " " then
    ["Upstream hostname or IP contains invalid characters (spaces)"]
  else []

/-- The violations of the upstream port check of `validateParams`. -/
def portErrors (d : ConfigData) : List String :=
  if d.PortUpstream = "" then ["Upstream port is empty"]
  else
    match atoi d.PortUpstream with
    | none => ["Upstream port must be a number between 1 and 65535"]
    | some port =>
      if port < 1 ∨ port > 65535 then ["Upstream port must be a number between 1 and 65535"]
      else []

/-- The violations of the protocol check of `validateParams`. -/
def protocolErrors (d : ConfigData) : List String :=
  if d.Protocol ≠ "http" ∧ d.Protocol ≠ "https" then ["Protocol must be 'http' or 'https'"] else []

/-- The violations of the certificate file check of `validateParams`. -/
def certErrors (stat : String → StatResult) (d : ConfigData) : List String :=
  if d.FullchainPath = "" then ["Certificate path is empty"]
  else if stat d.FullchainPath = .notExist then
    ["Certificate file " ++ d.FullchainPath ++ " does not exist"]
  else
    match stat d.FullchainPath with
    | .ok false => []
    | _ => ["Certificate path " ++ d.FullchainPath ++ " is not a valid file"]

/-- The violations of the private key file check of `validateParams`. -/
def keyErrors (stat : String → StatResult) (d : ConfigData) : List String :=
  if d.PrivkeyPath = "" then ["Private key path is empty"]
  else if stat d.PrivkeyPath = .notExist then
    ["Private key file " ++ d.PrivkeyPath ++ " does not exist"]
  else
    match stat d.PrivkeyPath with
    | .ok false => []
    | _ => ["Private key path " ++ d.PrivkeyPath ++ " is not a valid file"]

/-- The number a list of decimal digits denotes, most significant digit first. -/
def decimalValue (cs : List Char) : Nat :=
  cs.foldl (fun acc c => acc * 10 + (c.toNat - 48)) 0

/-- The text is a decimal integer in the range 1 to 65535: one or more ASCII
digits whose value lies in the range. -/
def IsPortNumber (s : String) : Prop :=
  s.data ≠ [] ∧ (∀ c ∈ s.data, isDigit c = true) ∧
    1 ≤ decimalValue s.data ∧ decimalValue s.data ≤ 65535

/-- A record with every required field present and valid for its site type:
the type is `proxy` or `local`, the site name matches the domain pattern, the
host name is non-empty, both certificate paths are non-empty and stat as
existing non-directory files, and for a proxy site the upstream host is
non-empty without a space, the port is a decimal integer in 1..65535 and the
protocol is `http` or `https`. -/
def ValidRecord (stat : String → StatResult) (d : ConfigData) (siteType : String) : Prop :=
  (siteType = "proxy" ∨ siteType = "local") ∧
  siteNamePattern.fullMatch d.SiteName.data = true ∧
  d.SiteHostName ≠ "" ∧
  d.FullchainPath ≠ "" ∧ stat d.FullchainPath = .ok false ∧
  d.PrivkeyPath ≠ "" ∧ stat d.PrivkeyPath = .ok false ∧
  (siteType = "proxy" →
    d.IPHostName ≠ "" ∧ ' ' ∉ d.IPHostName.data ∧ IsPortNumber d.PortUpstream ∧
      (d.Protocol = "http" ∨ d.Protocol = "https"))

/-- An example filesystem view: the two default certificate files exist. -/
def statEx : String → StatResult := fun p =>
  if p = "/opt/certs/fullchain.pem" then .ok false
  else if p = "/opt/certs/privkey.pem" then .ok false
  else .notExist

/-- The example record of the specification: a proxy site for
`teste.example.com` with upstream `192.168.1.100:8080` over `https`. -/
def dataEx : ConfigData :=
  { SiteName := "teste.example.com", SiteHostName := "teste", IPHostName := "192.168.1.100",
    PortUpstream := "8080", FullchainPath := "/opt/certs/fullchain.pem",
    PrivkeyPath := "/opt/certs/privkey.pem", Protocol := "https" }

/-! ## Specification-side notions -/

/-- The first dot-separated label of a name: the text before its first dot. -/
def firstLabel (s : String) : String :=
  ⟨s.data.takeWhile (fun c => decide (c ≠ '.'))⟩

/-! ## Rendered text, atom by atom -/

/-- A template seen character by character: a literal character or a field
action. -/
inductive Atom where
  | chr (c : Char)
  | fld (name : String)
  deriving DecidableEq, Repr

/-- The atoms of a parsed template. -/
def pieceAtoms : List Piece → List Atom
  | [] => []
  | .text s :: ps => s.data.map Atom.chr ++ pieceAtoms ps
  | .field n :: ps => Atom.fld n :: pieceAtoms ps

/-- The atoms of a template text; none when it does not parse. -/
def templateAtoms (tmplContent : String) : List Atom :=
  match parseTemplate tmplContent with
  | some ps => pieceAtoms ps
  | none => []

/-- The text of a field by name, empty for a name the record does not have. -/
def fieldText (data : ConfigData) (name : String) : String :=
  match lookupField data name with
  | some v => v
  | none => ""

/-- The characters an atom renders to. -/
def renderAtom (data : ConfigData) : Atom → List Char
  | .chr c => [c]
  | .fld n => (fieldText data n).data

/-- The characters a list of atoms renders to. -/
def renderAtoms (data : ConfigData) : List Atom → List Char
  | [] => []
  | a :: as => renderAtom data a ++ renderAtoms data as

/-- The lines of a list of atoms: split at every literal line feed. -/
def splitAtoms : List Atom → List (List Atom)
  | [] => [[]]
  | a :: as =>
    if a = Atom.chr '\n' then [] :: splitAtoms as
    else
      match splitAtoms as with
      | [] => [[a]]
      | l :: ls => (a :: l) :: ls

/-- The names of the fields among the atoms. -/
def atomFields : List Atom → List String
  | [] => []
  | .chr _ :: as => atomFields as
  | .fld n :: as => n :: atomFields as

/-- The names of the fields of `ConfigData`. -/
def knownFields : List String :=
  ["SiteName", "SiteHostName", "IPHostName", "PortUpstream", "FullchainPath", "PrivkeyPath",
    "Protocol"]

/-- The literal characters of a text as atoms. -/
def lit (s : String) : List Atom :=
  s.data.map Atom.chr

/-- The lines of a text: split at every line feed. -/
def textLines (s : String) : List String :=
  (splitOnChar '\n' s.data).map String.mk

/-- Blank characters inside a line: space and tab. -/
def isBlank (c : Char) : Bool :=
  c = ' ' || c = '\t'

/-- The first word of a line: what stands between the leading blanks and the
next blank. -/
def firstWordChars (l : List Char) : List Char :=
  (l.dropWhile isBlank).takeWhile (fun c => !isBlank c)

/-- The first word of a line of text, the name of the directive the line
starts. -/
def firstWord (l : String) : String :=
  ⟨firstWordChars l.data⟩

/-- The word that starts a list of atoms when it consists of literal
characters only; none when a field comes before the blank ending it. -/
def atomWord : List Atom → Option (List Char)
  | [] => some []
  | .chr c :: as => if isBlank c then some [] else (atomWord as).map (fun w => c :: w)
  | .fld _ :: _ => none

/-- The first word of a line of atoms when literal characters alone decide
it. -/
def atomFirstWord : List Atom → Option (List Char)
  | [] => some []
  | .chr c :: as => if isBlank c then atomFirstWord as else atomWord (.chr c :: as)
  | .fld _ :: _ => none

/-- A line of atoms agrees with a directive pattern: its first word is decided
by literal characters, and if it is the keyword the line is the expected
one. -/
def directiveOk (kw : List Char) (expected : List Atom) (line : List Atom) : Bool :=
  match atomFirstWord line with
  | some w => if w = kw then decide (line = expected) else true
  | none => false

/-- The record has no line feed in any field the template of the site type
interpolates. -/
def NoLineBreak (data : ConfigData) (siteType : String) : Prop :=
  ∀ n ∈ atomFields (templateAtoms (selectTemplate siteType)), '\n' ∉ (fieldText data n).data

/-- The upstream block of the proxy template, as atoms. -/
def upstreamBlock : List Atom :=
  lit "upstream " ++ [Atom.fld "SiteHostName"] ++ lit " \x7b\n    server " ++
    [Atom.fld "IPHostName"] ++ lit ":" ++ [Atom.fld "PortUpstream"] ++ lit ";\n\x7d"

/-- The `proxy_pass` directive of the proxy template, as atoms. -/
def proxyPassDirective : List Atom :=
  lit "proxy_pass " ++ [Atom.fld "Protocol"] ++ lit "://" ++ [Atom.fld "SiteHostName"] ++ lit ";"

/-- The `server_name` directive of both templates, as atoms. -/
def serverNameDirective : List Atom :=
  lit "server_name " ++ [Atom.fld "SiteName"] ++ lit ";"

/-- The `access_log` directive of both templates, as atoms. -/
def accessLogDirective : List Atom :=
  lit "access_log /var/log/nginx/" ++ [Atom.fld "SiteHostName"] ++ lit "_access.log;"

/-- The `error_log` directive of both templates, as atoms. -/
def errorLogDirective : List Atom :=
  lit "error_log /var/log/nginx/" ++ [Atom.fld "SiteHostName"] ++ lit "_error.log;"

/-- The checks on the atoms of a template that the rendering properties rest
on: the template parses, its fields are fields of the record, it contains the
three directives, and every line that starts with one of the three keywords
is the directive line, indented by four spaces. -/
def templateChecks (tmplContent : String) : Bool :=
  (parseTemplate tmplContent).isSome &&
  (atomFields (templateAtoms tmplContent)).all (fun n => decide (n ∈ knownFields)) &&
  containsSub serverNameDirective (templateAtoms tmplContent) &&
  containsSub accessLogDirective (templateAtoms tmplContent) &&
  containsSub errorLogDirective (templateAtoms tmplContent) &&
  (splitAtoms (templateAtoms tmplContent)).all
    (directiveOk "server_name".data (lit "    " ++ serverNameDirective)) &&
  (splitAtoms (templateAtoms tmplContent)).all
    (directiveOk "access_log".data (lit "    " ++ accessLogDirective)) &&
  (splitAtoms (templateAtoms tmplContent)).all
    (directiveOk "error_log".data (lit "    " ++ errorLogDirective))

/-- The example record with a line feed and a second directive in its upstream
port. -/
def dataInj : ConfigData :=
  { dataEx with PortUpstream := "8080;\n    server_name 192.168.1.100" }

/-! ## Paths and example states of the enable and disable flows -/

/-- The path of the config file of a site,
`<configDir>/sites-available/<site>.conf`. -/
def sitesAvailablePath (configDir site : String) : String :=
  filepathJoin [configDir, "sites-available", site ++ ".conf"]

/-- The path of the link that enables a site,
`<configDir>/sites-enabled/<site>.conf`. -/
def sitesEnabledPath (configDir site : String) : String :=
  filepathJoin [configDir, "sites-enabled", site ++ ".conf"]

/-- An environment in which every external command succeeds and the helper
is installed. -/
def envOk : Env :=
  { nginxTest := fun _ => .ok, reload := fun _ => .ok, ensiteOnPath := true,
    flagDiag := fun _ => "" }

/-- An example state: the configuration directory, the two default
certificate files, the config file of site `teste` and the link enabling
it. -/
def fsEnabled : FS := fun p =>
  if p = "/etc/nginx" then .dir
  else if p = "/opt/certs/fullchain.pem" then .file "CERT"
  else if p = "/opt/certs/privkey.pem" then .file "KEY"
  else if p = "/etc/nginx/sites-available/teste.conf" then .file "server"
  else if p = "/etc/nginx/sites-enabled/teste.conf" then
    .symlink "/etc/nginx/sites-available/teste.conf"
  else .absent

/-- An example state with a conflicting link: the link of site `teste` points
to the config file of another site. -/
def fsConflict : FS := fun p =>
  if p = "/etc/nginx" then .dir
  else if p = "/etc/nginx/sites-available/teste.conf" then .file "server"
  else if p = "/etc/nginx/sites-available/other.conf" then .file "server"
  else if p = "/etc/nginx/sites-enabled/teste.conf" then
    .symlink "/etc/nginx/sites-available/other.conf"
  else .absent

/-! ## Example runs of the create flow -/

/-- An example state: the configuration directory and the two default
certificate files, no site yet. -/
def fsCerts : FS := fun p =>
  if p = "/etc/nginx" then .dir
  else if p = "/opt/certs/fullchain.pem" then .file "CERT"
  else if p = "/opt/certs/privkey.pem" then .file "KEY"
  else .absent

/-- Batch flags for the local site `teste.example.com` with a fullchain path
that does not exist. -/
def flagsMissing : Create.Flags :=
  { siteName := "teste.example.com", siteType := "local", fullchainPath := "/nope",
    privkeyPath := "/opt/certs/privkey.pem" }

/-- What the create flow collects from `flagsMissing`. -/
def collectedMissing : Create.Collected :=
  { siteType := "local",
    data :=
      { SiteName := "teste.example.com", SiteHostName := "teste", IPHostName := "",
        PortUpstream := "", FullchainPath := "/nope", PrivkeyPath := "/opt/certs/privkey.pem",
        Protocol := "http" },
    stdin := [], out := [] }

/-- Batch flags for the local site `teste.example.com` with the default
certificate files. -/
def flagsValid : Create.Flags :=
  { siteName := "teste.example.com", siteType := "local",
    fullchainPath := "/opt/certs/fullchain.pem", privkeyPath := "/opt/certs/privkey.pem" }

/-- Interactive answers of an operator who creates the local site
`teste.example.com` with the default certificates and declines to enable
it. -/
def stdinDecline : List String :=
  ["teste.example.com", "local", "", "", "n"]

/-- Interactive answers of an operator who names `teste.example.com` and
declines to overwrite its existing config file. -/
def stdinCancel : List String :=
  ["teste.example.com", "n"]

/-! ## Example states for the enable and disable flows without a site -/

/-- The state with nothing in it: not even the configuration directory. -/
def fsEmpty : FS := fun _ => .absent

/-- An example state with a dangling link: the link of site `teste` points to
a config file that is not there. -/
def fsDangling : FS := fun p =>
  if p = "/etc/nginx" then .dir
  else if p = "/etc/nginx/sites-enabled/teste.conf" then
    .symlink "/etc/nginx/sites-available/teste.conf"
  else .absent

/-! ## Batch mode of the create flow -/

/-- Every required parameter was supplied by flag: site name, site kind, both
certificate paths and, for a proxy site, upstream host, port and protocol. -/
def AllRequiredByFlag (flags : Create.Flags) : Prop :=
  flags.siteName ≠ "" ∧ flags.siteType ≠ "" ∧
    flags.fullchainPath ≠ "" ∧ flags.privkeyPath ≠ "" ∧
    (toLower flags.siteType = "proxy" →
      flags.upstreamHost ≠ "" ∧ flags.upstreamPort ≠ "" ∧ flags.proxyProtocol ≠ "")

/-- The path of the config file the create flow checks and writes: the host
name is taken from the site name given by flag or typed at the prompt. -/
def configPathOf (flags : Create.Flags) (stdin : List String) : String :=
  sitesAvailablePath flags.configDir
    (Create.hostNameOf (Create.readSiteName flags stdin).1)

/-- The confirmation prompt of the create flow before it enables the site. -/
def enablePrompt : String :=
  "Do you want to enable the site and reload Nginx? (y/n): "

/-- Flags that name only the site and its kind, for the local site
`teste.example.com`. -/
def flagsLocalOnly : Create.Flags :=
  { siteName := "teste.example.com", siteType := "local" }

/-- Flags for the proxy site `teste.example.com` with the site kind typed in
upper case and no certificate path. -/
def flagsUpperProxy : Create.Flags :=
  { siteName := "teste.example.com", siteType := "PROXY", upstreamHost := "127.0.0.1",
    upstreamPort := "8080", proxyProtocol := "http" }

/-! ## The create flow in another configuration directory -/

/-- Batch flags for the local site `teste.example.com` with the default
certificate files, in the configuration directory `/custom/nginx`. -/
def flagsCustom : Create.Flags :=
  { configDir := "/custom/nginx", siteName := "teste.example.com", siteType := "local",
    fullchainPath := "/opt/certs/fullchain.pem", privkeyPath := "/opt/certs/privkey.pem" }

/-- An example state: the configuration directories `/custom/nginx` and
`/etc/nginx`, both without a site, and the two default certificate files. -/
def fsCustom : FS := fun p =>
  if p = "/custom/nginx" then .dir
  else if p = "/etc/nginx" then .dir
  else if p = "/opt/certs/fullchain.pem" then .file "CERT"
  else if p = "/opt/certs/privkey.pem" then .file "KEY"
  else .absent

/-- The state `fsCustom` with a site `teste` of its own in `/etc/nginx`. -/
def fsCustomOther : FS :=
  fsCustom.set "/etc/nginx/sites-available/teste.conf" (.file "other")

/-- What the create flow collects from `flagsCustom`: a valid record. -/
def collectedCustom : Create.Collected :=
  { siteType := "local",
    data :=
      { SiteName := "teste.example.com", SiteHostName := "teste", IPHostName := "",
        PortUpstream := "", FullchainPath := "/opt/certs/fullchain.pem",
        PrivkeyPath := "/opt/certs/privkey.pem", Protocol := "http" },
    stdin := [], out := [] }

/-! # Theorems -/

set_option maxRecDepth 1000000

/-! ## Validation: the violation list, check by check -/

theorem ite_append_right {α : Type} (c : Prop) [Decidable c] (e l : List α) :
    (if c then e ++ l else e) = e ++ (if c then l else []) := by
  split <;> simp

theorem ite_append_both {α : Type} (c : Prop) [Decidable c] (e l r : List α) :
    (if c then e ++ l else e ++ r) = e ++ (if c then l else r) := by
  split <;> simp

theorem validateParams_eq (stat : String → StatResult) (d : ConfigData) (siteType : String) :
    validateParams stat d siteType =
      siteNameErrors d ++ hostNameErrors d ++ siteTypeErrors siteType ++
        (if siteType = "proxy" then upstreamHostErrors d ++ portErrors d ++ protocolErrors d
          else []) ++ certErrors stat d ++ keyErrors stat d := by
  have hport : ∀ e : List String,
      (if d.PortUpstream = "" then e ++ ["Upstream port is empty"]
        else
          match atoi d.PortUpstream with
          | none => e ++ ["Upstream port must be a number between 1 and 65535"]
          | some port =>
            if port < 1 ∨ port > 65535 then
              e ++ ["Upstream port must be a number between 1 and 65535"]
            else e) = e ++ portErrors d := by
    intro e
    unfold portErrors
    split
    · rfl
    · split
      · rfl
      · split <;> simp
  have hcert : ∀ e : List String,
      (if d.FullchainPath = "" then e ++ ["Certificate path is empty"]
        else if stat d.FullchainPath = .notExist then
          e ++ ["Certificate file " ++ d.FullchainPath ++ " does not exist"]
        else
          match stat d.FullchainPath with
          | .ok false => e
          | _ => e ++ ["Certificate path " ++ d.FullchainPath ++ " is not a valid file"])
        = e ++ certErrors stat d := by
    intro e
    unfold certErrors
    split
    · rfl
    · split
      · rfl
      · split <;> simp
  have hkey : ∀ e : List String,
      (if d.PrivkeyPath = "" then e ++ ["Private key path is empty"]
        else if stat d.PrivkeyPath = .notExist then
          e ++ ["Private key file " ++ d.PrivkeyPath ++ " does not exist"]
        else
          match stat d.PrivkeyPath with
          | .ok false => e
          | _ => e ++ ["Private key path " ++ d.PrivkeyPath ++ " is not a valid file"])
        = e ++ keyErrors stat d := by
    intro e
    unfold keyErrors
    split
    · rfl
    · split
      · rfl
      · split <;> simp
  unfold validateParams
  simp only [hport, hcert, hkey]
  unfold siteNameErrors hostNameErrors siteTypeErrors upstreamHostErrors protocolErrors
  by_cases hp : siteType = "proxy"
  · simp only [hp, if_true]
    simp only [ite_append_right, ite_append_both, List.nil_append, List.append_assoc]
  · simp only [hp, if_false]
    simp only [ite_append_right, ite_append_both, List.nil_append, List.append_assoc,
      List.append_nil]

theorem string_eq_empty_iff (s : String) : s = "" ↔ s.data = [] := by
  constructor
  · intro h; rw [h]
  · intro h; exact String.ext h

theorem parseDigits_of_digits (cs : List Char) (acc : Nat) (h : ∀ c ∈ cs, isDigit c = true) :
    parseDigits cs acc = some (cs.foldl (fun a c => a * 10 + (c.toNat - 48)) acc) := by
  induction cs generalizing acc with
  | nil => rfl
  | cons c cs ih =>
    have hc : isDigit c = true := h c (List.mem_cons_self _ _)
    simp only [parseDigits, hc, if_true, List.foldl_cons]
    exact ih _ (fun x hx => h x (List.mem_cons_of_mem _ hx))

theorem isDigit_ne_sign (c : Char) (h : isDigit c = true) : c ≠ '-' ∧ c ≠ '+' := by
  constructor <;> (intro e; subst e; revert h; decide)

theorem atoi_of_port (s : String) (h : IsPortNumber s) :
    atoi s = some (decimalValue s.data : Int) := by
  obtain ⟨hne, hdig, _, hhi⟩ := h
  unfold atoi
  cases hs : s.data with
  | nil => exact absurd hs hne
  | cons c cs =>
    rw [hs] at hdig hhi
    have hc := isDigit_ne_sign c (hdig c (List.mem_cons_self _ _))
    simp only [hc.1, hc.2, if_false]
    rw [parseDigits_of_digits _ _ hdig]
    have hlt : decimalValue (c :: cs) < 2 ^ 63 := by
      have : (65535 : Nat) < 2 ^ 63 := by norm_num
      omega
    unfold decimalValue at hlt ⊢
    simp only [hlt, if_true]

theorem hasPrefix_single_cons (c x : Char) (xs : List Char) :
    hasPrefix [c] (x :: xs) = decide (c = x) := by
  by_cases h : c = x <;> simp [hasPrefix, h]

theorem containsSub_singleton (c : Char) (l : List Char) :
    containsSub [c] l = true ↔ c ∈ l := by
  induction l with
  | nil => simp [containsSub, hasPrefix]
  | cons x xs ih =>
    unfold containsSub
    rw [hasPrefix_single_cons]
    by_cases h : c = x
    · simp [h]
    · simp [h, ih]

theorem valid_components (stat : String → StatResult) (d : ConfigData) (siteType : String)
    (h : ValidRecord stat d siteType) :
    siteNameErrors d = [] ∧ hostNameErrors d = [] ∧ siteTypeErrors siteType = [] ∧
      certErrors stat d = [] ∧ keyErrors stat d = [] ∧
      (siteType = "proxy" →
        upstreamHostErrors d = [] ∧ portErrors d = [] ∧ protocolErrors d = []) := by
  obtain ⟨hty, hname, hhost, hfc, hfs, hpk, hps, hproxy⟩ := h
  have hne : d.SiteName ≠ "" := by
    intro e
    rw [e] at hname
    exact absurd hname (by decide)
  refine ⟨by simp [siteNameErrors, hne, hname], by simp [hostNameErrors, hhost], ?_,
    by simp [certErrors, hfc, hfs], by simp [keyErrors, hpk, hps], ?_⟩
  · rcases hty with e | e <;> simp [siteTypeErrors, e]
  · intro hp
    obtain ⟨hip, hsp, hport, hproto⟩ := hproxy hp
    refine ⟨?_, ?_, ?_⟩
    · have : stringsContains d.IPHostName " " = false := by
        rw [Bool.eq_false_iff]
        intro hc
        exact hsp ((containsSub_singleton ' ' _).1 hc)
      simp [upstreamHostErrors, hip, this]
    · have hpe : d.PortUpstream ≠ "" := by
        intro e
        exact hport.1 (by rw [e])
      have hlo := hport.2.2.1
      have hhi := hport.2.2.2
      simp only [portErrors, hpe, if_false, atoi_of_port _ hport]
      have : ¬ ((decimalValue d.PortUpstream.data : Int) < 1 ∨
          (decimalValue d.PortUpstream.data : Int) > 65535) := by omega
      simp only [this, if_false]
    · rcases hproto with e | e <;> simp [protocolErrors, e]

/-- C1: a record with every required field present and valid for its site type
(`proxy` or `local`) has no violation: `validateParams` returns the empty
list. -/
theorem validateParams_valid (stat : String → StatResult) (d : ConfigData) (siteType : String)
    (h : ValidRecord stat d siteType) : validateParams stat d siteType = [] := by
  obtain ⟨h1, h2, h3, h4, h5, h6⟩ := valid_components stat d siteType h
  rw [validateParams_eq, h1, h2, h3, h4, h5]
  by_cases hp : siteType = "proxy"
  · obtain ⟨a, b, c⟩ := h6 hp
    simp [hp, a, b, c]
  · simp [hp]

theorem validRecord_example : ValidRecord statEx dataEx "proxy" := by
  unfold ValidRecord IsPortNumber
  decide

/-- Witness for C1: the example proxy record is valid and has no violation. -/
theorem validateParams_valid_witness :
    ValidRecord statEx dataEx "proxy" ∧ validateParams statEx dataEx "proxy" = [] :=
  ⟨validRecord_example, validateParams_valid statEx dataEx "proxy" validRecord_example⟩

theorem ne_of_head_ne {s t : String} (h : s.data.head? ≠ t.data.head?) : s ≠ t :=
  fun e => h (by rw [e])

/-- C2: emptying exactly one required field of a record that is otherwise
valid for its site type leaves exactly one violation, the one that names the
emptied field: site name, host name, the two certificate paths, and for a
proxy site upstream host, upstream port and protocol. -/
theorem validateParams_one_missing (stat : String → StatResult) (d : ConfigData)
    (siteType : String) (h : ValidRecord stat d siteType) :
    validateParams stat { d with SiteName := "" } siteType = ["Site name is empty"] ∧
    validateParams stat { d with SiteHostName := "" } siteType =
      ["Site hostname could not be extracted from site name"] ∧
    validateParams stat { d with FullchainPath := "" } siteType = ["Certificate path is empty"] ∧
    validateParams stat { d with PrivkeyPath := "" } siteType = ["Private key path is empty"] ∧
    (siteType = "proxy" →
      validateParams stat { d with IPHostName := "" } siteType =
        ["Upstream hostname or IP is empty"] ∧
      validateParams stat { d with PortUpstream := "" } siteType = ["Upstream port is empty"] ∧
      validateParams stat { d with Protocol := "" } siteType =
        ["Protocol must be 'http' or 'https'"]) := by
  obtain ⟨h1, h2, h3, h4, h5, h6⟩ := valid_components stat d siteType h
  have hproxyPart : (if siteType = "proxy" then
      upstreamHostErrors d ++ portErrors d ++ protocolErrors d else []) = [] := by
    by_cases hp : siteType = "proxy"
    · obtain ⟨a, b, c⟩ := h6 hp
      simp [a, b, c]
    · simp [hp]
  refine ⟨?_, ?_, ?_, ?_, ?_⟩
  · rw [validateParams_eq]
    show siteNameErrors { d with SiteName := "" } ++ hostNameErrors d ++ siteTypeErrors siteType ++
      (if siteType = "proxy" then upstreamHostErrors d ++ portErrors d ++ protocolErrors d
        else []) ++ certErrors stat d ++ keyErrors stat d = _
    rw [h2, h3, h4, h5, hproxyPart]
    simp [siteNameErrors]
  · rw [validateParams_eq]
    show siteNameErrors d ++ hostNameErrors { d with SiteHostName := "" } ++
      siteTypeErrors siteType ++
      (if siteType = "proxy" then upstreamHostErrors d ++ portErrors d ++ protocolErrors d
        else []) ++ certErrors stat d ++ keyErrors stat d = _
    rw [h1, h3, h4, h5, hproxyPart]
    simp [hostNameErrors]
  · rw [validateParams_eq]
    show siteNameErrors d ++ hostNameErrors d ++ siteTypeErrors siteType ++
      (if siteType = "proxy" then upstreamHostErrors d ++ portErrors d ++ protocolErrors d
        else []) ++ certErrors stat { d with FullchainPath := "" } ++ keyErrors stat d = _
    rw [h1, h2, h3, h5, hproxyPart]
    simp [certErrors]
  · rw [validateParams_eq]
    show siteNameErrors d ++ hostNameErrors d ++ siteTypeErrors siteType ++
      (if siteType = "proxy" then upstreamHostErrors d ++ portErrors d ++ protocolErrors d
        else []) ++ certErrors stat d ++ keyErrors stat { d with PrivkeyPath := "" } = _
    rw [h1, h2, h3, h4, hproxyPart]
    simp [keyErrors]
  · intro hp
    obtain ⟨a, b, c⟩ := h6 hp
    refine ⟨?_, ?_, ?_⟩
    · rw [validateParams_eq]
      show siteNameErrors d ++ hostNameErrors d ++ siteTypeErrors siteType ++
        (if siteType = "proxy" then
          upstreamHostErrors { d with IPHostName := "" } ++ portErrors d ++ protocolErrors d
          else []) ++ certErrors stat d ++ keyErrors stat d = _
      rw [h1, h2, h3, h4, h5, b, c]
      simp [hp, upstreamHostErrors]
    · rw [validateParams_eq]
      show siteNameErrors d ++ hostNameErrors d ++ siteTypeErrors siteType ++
        (if siteType = "proxy" then
          upstreamHostErrors d ++ portErrors { d with PortUpstream := "" } ++ protocolErrors d
          else []) ++ certErrors stat d ++ keyErrors stat d = _
      rw [h1, h2, h3, h4, h5, a, c]
      simp [hp, portErrors]
    · rw [validateParams_eq]
      show siteNameErrors d ++ hostNameErrors d ++ siteTypeErrors siteType ++
        (if siteType = "proxy" then
          upstreamHostErrors d ++ portErrors d ++ protocolErrors { d with Protocol := "" }
          else []) ++ certErrors stat d ++ keyErrors stat d = _
      rw [h1, h2, h3, h4, h5, a, b]
      simp [hp, protocolErrors]

/-- Witness for C2: the example proxy record with its port emptied. -/
theorem validateParams_one_missing_witness :
    ValidRecord statEx dataEx "proxy" ∧
      validateParams statEx { dataEx with PortUpstream := "" } "proxy" =
        ["Upstream port is empty"] :=
  ⟨validRecord_example,
    (validateParams_one_missing statEx dataEx "proxy" validRecord_example).2.2.2.2 rfl |>.2.1⟩

theorem mem_validateParams_proxy (stat : String → StatResult) (d : ConfigData) (m : String) :
    m ∈ validateParams stat d "proxy" ↔
      m ∈ siteNameErrors d ∨ m ∈ hostNameErrors d ∨ m ∈ upstreamHostErrors d ∨
        m ∈ portErrors d ∨ m ∈ protocolErrors d ∨ m ∈ certErrors stat d ∨
        m ∈ keyErrors stat d := by
  rw [validateParams_eq]
  have : siteTypeErrors "proxy" = [] := by decide
  simp only [this, if_true, List.mem_append, List.append_nil]
  tauto

theorem mem_siteNameErrors (d : ConfigData) (m : String) (h : m ∈ siteNameErrors d) :
    m.data.head? = some 'S' ∨ m.data.head? = some 'I' := by
  unfold siteNameErrors at h
  split at h
  · simp at h; subst h; exact Or.inl rfl
  · split at h
    · simp at h; subst h; exact Or.inr rfl
    · simp at h

theorem mem_hostNameErrors (d : ConfigData) (m : String) (h : m ∈ hostNameErrors d) :
    m.data.head? = some 'S' := by
  unfold hostNameErrors at h
  split at h
  · simp at h; subst h; rfl
  · simp at h

theorem mem_protocolErrors (d : ConfigData) (m : String) (h : m ∈ protocolErrors d) :
    m.data.head? = some 'P' := by
  unfold protocolErrors at h
  split at h
  · simp at h; subst h; rfl
  · simp at h

theorem mem_certErrors (stat : String → StatResult) (d : ConfigData) (m : String)
    (h : m ∈ certErrors stat d) : m.data.head? = some 'C' := by
  unfold certErrors at h
  split at h
  · simp at h; subst h; rfl
  · split at h
    · simp at h; subst h; simp [String.data_append]
    · split at h
      · simp at h
      · simp at h; subst h; simp [String.data_append]

theorem mem_keyErrors (stat : String → StatResult) (d : ConfigData) (m : String)
    (h : m ∈ keyErrors stat d) : m.data.head? = some 'P' := by
  unfold keyErrors at h
  split at h
  · simp at h; subst h; rfl
  · split at h
    · simp at h; subst h; simp [String.data_append]
    · split at h
      · simp at h
      · simp at h; subst h; simp [String.data_append]

theorem mem_upstreamHostErrors (d : ConfigData) (m : String) :
    m ∈ upstreamHostErrors d ↔
      (d.IPHostName = "" ∧ m = "Upstream hostname or IP is empty") ∨
      (d.IPHostName ≠ "" ∧ ' ' ∈ d.IPHostName.data ∧
        m = "Upstream hostname or IP contains invalid characters (spaces)") := by
  unfold upstreamHostErrors stringsContains
  have hsp : (" " : String).data = [' '] := rfl
  rw [hsp]
  by_cases h1 : d.IPHostName = ""
  · simp [h1]
  · by_cases h2 : containsSub [' '] d.IPHostName.data = true
    · have := (containsSub_singleton ' ' _).1 h2
      simp [h1, h2, this]
    · have : ' ' ∉ d.IPHostName.data := fun hc => h2 ((containsSub_singleton ' ' _).2 hc)
      simp [h1, h2, this]

theorem mem_portErrors (d : ConfigData) (m : String) :
    m ∈ portErrors d ↔
      (d.PortUpstream = "" ∧ m = "Upstream port is empty") ∨
      (d.PortUpstream ≠ "" ∧ (¬ ∃ n : Int, atoi d.PortUpstream = some n ∧ 1 ≤ n ∧ n ≤ 65535) ∧
        m = "Upstream port must be a number between 1 and 65535") := by
  unfold portErrors
  by_cases h1 : d.PortUpstream = ""
  · simp [h1]
  · simp only [h1, if_false, false_and, false_or, ne_eq, not_false_eq_true, true_and]
    cases hat : atoi d.PortUpstream with
    | none => simp
    | some port =>
      by_cases hr : port < 1 ∨ port > 65535
      · have : ¬ (1 ≤ port ∧ port ≤ 65535) := by omega
        simp [hr, this]
      · have : 1 ≤ port ∧ port ≤ 65535 := by omega
        simp [hr, this]

theorem atoi_empty : atoi "" = none := rfl


theorem mem_validateParams_upstream (stat : String → StatResult) (d : ConfigData) (m : String)
    (hm : m.data.head? = some 'U') :
    m ∈ validateParams stat d "proxy" ↔ m ∈ upstreamHostErrors d ∨ m ∈ portErrors d := by
  rw [mem_validateParams_proxy]
  constructor
  · rintro (h | h | h | h | h | h | h)
    · rcases mem_siteNameErrors d m h with e | e <;> rw [hm] at e <;> exact absurd e (by decide)
    · have e := mem_hostNameErrors d m h
      rw [hm] at e
      exact absurd e (by decide)
    · exact Or.inl h
    · exact Or.inr h
    · have e := mem_protocolErrors d m h
      rw [hm] at e
      exact absurd e (by decide)
    · have e := mem_certErrors stat d m h
      rw [hm] at e
      exact absurd e (by decide)
    · have e := mem_keyErrors stat d m h
      rw [hm] at e
      exact absurd e (by decide)
  · rintro (h | h)
    · exact Or.inr (Or.inr (Or.inl h))
    · exact Or.inr (Or.inr (Or.inr (Or.inl h)))

theorem port_violation_reported_iff (stat : String → StatResult) (d : ConfigData) :
    ("Upstream port is empty" ∈ validateParams stat d "proxy" ∨
      "Upstream port must be a number between 1 and 65535" ∈ validateParams stat d "proxy") ↔
      ¬ ∃ n : Int, atoi d.PortUpstream = some n ∧ 1 ≤ n ∧ n ≤ 65535 := by
  rw [mem_validateParams_upstream stat d "Upstream port is empty" rfl,
    mem_validateParams_upstream stat d "Upstream port must be a number between 1 and 65535" rfl,
    mem_upstreamHostErrors, mem_upstreamHostErrors, mem_portErrors, mem_portErrors]
  by_cases h1 : d.PortUpstream = ""
  · have : ¬ ∃ n : Int, atoi d.PortUpstream = some n ∧ 1 ≤ n ∧ n ≤ 65535 := by
      rw [h1, atoi_empty]
      simp
    rw [h1] at this
    simpa [h1] using this
  · simp [h1]

/-- C3: for a proxy record an upstream-port violation is reported if and only
if the port does not parse (`strconv.Atoi`) as an integer in the closed range
1..65535; `0` and `65536` are rejected, `1` and `65535` are accepted. -/
theorem port_violation_iff (stat : String → StatResult) (d : ConfigData) :
    (("Upstream port is empty" ∈ validateParams stat d "proxy" ∨
        "Upstream port must be a number between 1 and 65535" ∈ validateParams stat d "proxy") ↔
      ¬ ∃ n : Int, atoi d.PortUpstream = some n ∧ 1 ≤ n ∧ n ≤ 65535) ∧
    "Upstream port must be a number between 1 and 65535" ∈
      validateParams stat { d with PortUpstream := "0" } "proxy" ∧
    "Upstream port must be a number between 1 and 65535" ∈
      validateParams stat { d with PortUpstream := "65536" } "proxy" ∧
    ("Upstream port is empty" ∉ validateParams stat { d with PortUpstream := "1" } "proxy" ∧
      "Upstream port must be a number between 1 and 65535" ∉
        validateParams stat { d with PortUpstream := "1" } "proxy") ∧
    ("Upstream port is empty" ∉ validateParams stat { d with PortUpstream := "65535" } "proxy" ∧
      "Upstream port must be a number between 1 and 65535" ∉
        validateParams stat { d with PortUpstream := "65535" } "proxy") := by
  refine ⟨port_violation_reported_iff stat d, ?_, ?_, ?_, ?_⟩
  · have h := port_violation_reported_iff stat { d with PortUpstream := "0" }
    have hno : ¬ ∃ n : Int, atoi "0" = some n ∧ 1 ≤ n ∧ n ≤ 65535 := by
      rintro ⟨n, hn, h1, h2⟩
      have : atoi "0" = some 0 := by decide
      simp only [this, Option.some.injEq] at hn
      omega
    rcases h.2 hno with x | x
    · rw [mem_validateParams_upstream _ _ "Upstream port is empty" rfl, mem_upstreamHostErrors,
        mem_portErrors] at x
      simp at x
    · exact x
  · have h := port_violation_reported_iff stat { d with PortUpstream := "65536" }
    have hno : ¬ ∃ n : Int, atoi "65536" = some n ∧ 1 ≤ n ∧ n ≤ 65535 := by
      rintro ⟨n, hn, h1, h2⟩
      have : atoi "65536" = some 65536 := by decide
      simp only [this, Option.some.injEq] at hn
      omega
    rcases h.2 hno with x | x
    · rw [mem_validateParams_upstream _ _ "Upstream port is empty" rfl, mem_upstreamHostErrors,
        mem_portErrors] at x
      simp at x
    · exact x
  · have h := port_violation_reported_iff stat { d with PortUpstream := "1" }
    have hex : ∃ n : Int, atoi "1" = some n ∧ 1 ≤ n ∧ n ≤ 65535 := ⟨1, by decide⟩
    have hno := fun hv => (h.1 hv) hex
    exact ⟨fun x => hno (Or.inl x), fun x => hno (Or.inr x)⟩
  · have h := port_violation_reported_iff stat { d with PortUpstream := "65535" }
    have hex : ∃ n : Int, atoi "65535" = some n ∧ 1 ≤ n ∧ n ≤ 65535 := ⟨65535, by decide⟩
    have hno := fun hv => (h.1 hv) hex
    exact ⟨fun x => hno (Or.inl x), fun x => hno (Or.inr x)⟩

/-- C7, as amended: for a proxy record an upstream-host violation is reported
if and only if the host is empty or contains a space character (U+0020). -/
theorem upstream_host_violation_iff (stat : String → StatResult) (d : ConfigData) :
    ("Upstream hostname or IP is empty" ∈ validateParams stat d "proxy" ∨
      "Upstream hostname or IP contains invalid characters (spaces)" ∈
        validateParams stat d "proxy") ↔
      (d.IPHostName = "" ∨ ' ' ∈ d.IPHostName.data) := by
  rw [mem_validateParams_upstream stat d "Upstream hostname or IP is empty" rfl,
    mem_validateParams_upstream stat d
      "Upstream hostname or IP contains invalid characters (spaces)" rfl,
    mem_upstreamHostErrors, mem_upstreamHostErrors, mem_portErrors, mem_portErrors]
  by_cases h1 : d.IPHostName = ""
  · simp [h1]
  · simp [h1]

/-- Counterexample for C7: an upstream host with a tab in it (white space, but
not a space) draws no violation at all. -/
theorem tab_host_not_reported :
    (∃ c ∈ ({ dataEx with IPHostName := "up\tstream" } : ConfigData).IPHostName.data,
        isSpace c = true) ∧
      validateParams statEx { dataEx with IPHostName := "up\tstream" } "proxy" = [] := by
  decide

/-! ## The host name derived from the site name -/

theorem splitOnChar_shape (sep : Char) (l : List Char) :
    ∃ rest, splitOnChar sep l = l.takeWhile (fun c => decide (c ≠ sep)) :: rest ∧
      (rest = [] ↔ sep ∉ l) := by
  induction l with
  | nil => exact ⟨[], rfl, by simp⟩
  | cons c cs ih =>
    obtain ⟨rest, h, hr⟩ := ih
    by_cases hc : c = sep
    · refine ⟨splitOnChar sep cs, ?_, ?_⟩
      · simp [splitOnChar, hc]
      · rw [h]
        simp [hc]
    · refine ⟨rest, ?_, ?_⟩
      · simp [splitOnChar, hc, h]
      · rw [hr]
        simp [hc, Ne.symm hc]

theorem hostNameOf_of_dot (s : String) (h : '.' ∈ s.data) :
    Create.hostNameOf s = firstLabel s := by
  obtain ⟨rest, hs, hr⟩ := splitOnChar_shape '.' s.data
  have hne : s ≠ "" := by
    intro e
    rw [e] at h
    simp at h
  have hrest : rest ≠ [] := fun e => (hr.1 e) h
  cases rest with
  | nil => exact absurd rfl hrest
  | cons r rs =>
    simp [Create.hostNameOf, hne, splitDot, hs, firstLabel]

theorem hostNameOf_of_no_dot (s : String) (h : '.' ∉ s.data) :
    Create.hostNameOf s = "" := by
  obtain ⟨rest, hs, hr⟩ := splitOnChar_shape '.' s.data
  have hrest : rest = [] := hr.2 h
  subst hrest
  by_cases hne : s = ""
  · simp [Create.hostNameOf, hne]
  · simp [Create.hostNameOf, hne, splitDot, hs]

/-- C4, as amended: the host name the create flow derives is the first
dot-separated label of the site name when the name contains a dot, and empty
when it contains none; it is non-empty exactly when the site name contains a
dot and does not begin with one. -/
theorem hostNameOf_spec (s : String) :
    ('.' ∈ s.data → Create.hostNameOf s = firstLabel s) ∧
    ('.' ∉ s.data → Create.hostNameOf s = "") ∧
    (Create.hostNameOf s ≠ "" ↔ '.' ∈ s.data ∧ s.data.head? ≠ some '.') := by
  refine ⟨hostNameOf_of_dot s, hostNameOf_of_no_dot s, ?_⟩
  by_cases h : '.' ∈ s.data
  · rw [hostNameOf_of_dot s h]
    simp only [h, true_and, firstLabel, ne_eq]
    rw [string_eq_empty_iff]
    cases hd : s.data with
    | nil => rw [hd] at h; simp at h
    | cons c cs =>
      by_cases hc : c = '.'
      · simp [hc]
      · simp [hc]
  · rw [hostNameOf_of_no_dot s h]
    simp [h]

/-- Witness for C4: `teste.example.com` contains a dot and yields `teste`. -/
theorem hostNameOf_spec_witness :
    '.' ∈ "teste.example.com".data ∧
      Create.hostNameOf "teste.example.com" = firstLabel "teste.example.com" ∧
      Create.hostNameOf "teste.example.com" = "teste" :=
  ⟨by decide, (hostNameOf_spec "teste.example.com").1 (by decide), by decide⟩

/-- Counterexample for C4: the non-empty site name `localhost` has the first
label `localhost`, and the derived host name is empty. -/
theorem hostNameOf_localhost :
    ("localhost" : String) ≠ "" ∧ firstLabel "localhost" = "localhost" ∧
      Create.hostNameOf "localhost" = "" := by
  decide

/-! ## Rendering -/

theorem lookupField_known (d : ConfigData) (n : String) (h : n ∈ knownFields) :
    lookupField d n = some (fieldText d n) := by
  simp only [knownFields, List.mem_cons, List.mem_singleton, List.not_mem_nil, or_false] at h
  rcases h with h | h | h | h | h | h | h <;> subst h <;> rfl

theorem executeTemplate_eq (d : ConfigData) (ps : List Piece) (written : String)
    (h : ∀ n ∈ atomFields (pieceAtoms ps), n ∈ knownFields) :
    executeTemplate ps d written = (⟨written.data ++ renderAtoms d (pieceAtoms ps)⟩, true) := by
  induction ps generalizing written with
  | nil => simp [executeTemplate, pieceAtoms, renderAtoms]
  | cons p ps ih =>
    cases p with
    | text s =>
      have hrec : ∀ n ∈ atomFields (pieceAtoms ps), n ∈ knownFields := by
        intro n hn
        apply h
        simp only [pieceAtoms]
        clear h ih
        induction s.data with
        | nil => simpa using hn
        | cons c cs ihc => simpa [atomFields] using ihc
      have hlit : ∀ (cs : List Char) (rest : List Atom),
          renderAtoms d (cs.map Atom.chr ++ rest) = cs ++ renderAtoms d rest := by
        intro cs rest
        induction cs with
        | nil => rfl
        | cons c cs ihc => simp [renderAtoms, renderAtom, ihc]
      simp only [executeTemplate, pieceAtoms]
      rw [ih _ hrec, hlit]
      simp [String.data_append]
    | field n =>
      have hn : n ∈ knownFields := h n (by simp [pieceAtoms, atomFields])
      have hrec : ∀ m ∈ atomFields (pieceAtoms ps), m ∈ knownFields := by
        intro m hm
        apply h
        simp [pieceAtoms, atomFields, hm]
      simp only [executeTemplate, pieceAtoms, lookupField_known d n hn]
      rw [ih _ hrec]
      simp [String.data_append, renderAtoms, renderAtom]

theorem splitOnChar_ne_nil (sep : Char) (l : List Char) : splitOnChar sep l ≠ [] := by
  obtain ⟨rest, h, _⟩ := splitOnChar_shape sep l
  rw [h]
  exact List.cons_ne_nil _ _

theorem splitAtoms_ne_nil (as : List Atom) : splitAtoms as ≠ [] := by
  cases as with
  | nil => simp [splitAtoms]
  | cons a as =>
    unfold splitAtoms
    split
    · exact List.cons_ne_nil _ _
    · split <;> exact List.cons_ne_nil _ _

theorem splitOnChar_append_of_not_mem (sep : Char) (v rest : List Char) (h : sep ∉ v)
    (hd : List Char) (tl : List (List Char)) (hs : splitOnChar sep rest = hd :: tl) :
    splitOnChar sep (v ++ rest) = (v ++ hd) :: tl := by
  induction v with
  | nil => simpa using hs
  | cons c cs ih =>
    have hc : c ≠ sep := fun e => h (by simp [e])
    have hcs : sep ∉ cs := fun e => h (List.mem_cons_of_mem _ e)
    simp [splitOnChar, hc, ih hcs]

theorem splitOnChar_renderAtoms (d : ConfigData) (as : List Atom)
    (h : ∀ n ∈ atomFields as, '\n' ∉ (fieldText d n).data) :
    splitOnChar '\n' (renderAtoms d as) = (splitAtoms as).map (renderAtoms d) := by
  induction as with
  | nil => rfl
  | cons a as ih =>
    cases a with
    | chr c =>
      have ih1 := ih (fun n hn => h n (by simpa [atomFields] using hn))
      by_cases hc : c = '\n'
      · subst hc
        simp [renderAtoms, renderAtom, splitOnChar, splitAtoms, ih1]
      · cases hsa : splitAtoms as with
        | nil => exact absurd hsa (splitAtoms_ne_nil as)
        | cons l ls =>
          rw [hsa] at ih1
          simp [renderAtoms, renderAtom, splitOnChar, splitAtoms, hc, ih1, hsa]
    | fld n =>
      have ih1 := ih (fun m hm => h m (by simp [atomFields, hm]))
      have hn : '\n' ∉ (fieldText d n).data := h n (by simp [atomFields])
      cases hsa : splitAtoms as with
      | nil => exact absurd hsa (splitAtoms_ne_nil as)
      | cons l ls =>
        rw [hsa] at ih1
        simp only [List.map_cons] at ih1
        simp only [renderAtoms, renderAtom, splitAtoms, hsa, List.map_cons]
        rw [splitOnChar_append_of_not_mem _ _ _ hn _ _ ih1]
        simp [renderAtoms, renderAtom]

theorem atomWord_render (d : ConfigData) (as : List Atom) (w : List Char)
    (h : atomWord as = some w) :
    (renderAtoms d as).takeWhile (fun c => !isBlank c) = w := by
  induction as generalizing w with
  | nil =>
    simp only [atomWord, Option.some.injEq] at h
    subst h
    rfl
  | cons a as ih =>
    cases a with
    | chr c =>
      by_cases hb : isBlank c = true
      · simp only [atomWord, hb, if_true, Option.some.injEq] at h
        subst h
        simp [renderAtoms, renderAtom, hb]
      · cases hw : atomWord as with
        | none => simp [atomWord, hb, hw] at h
        | some w1 =>
          simp [atomWord, hb, hw] at h
          subst h
          simp [renderAtoms, renderAtom, hb, ih w1 hw]
    | fld n => simp [atomWord] at h

theorem atomFirstWord_render (d : ConfigData) (as : List Atom) (w : List Char)
    (h : atomFirstWord as = some w) : firstWordChars (renderAtoms d as) = w := by
  induction as generalizing w with
  | nil =>
    simp only [atomFirstWord, Option.some.injEq] at h
    subst h
    rfl
  | cons a as ih =>
    cases a with
    | chr c =>
      by_cases hb : isBlank c = true
      · simp only [atomFirstWord, hb, if_true] at h
        have := ih w h
        simp only [firstWordChars] at this ⊢
        simp [renderAtoms, renderAtom, hb, this]
      · have hb2 : isBlank c = false := by simpa using hb
        simp only [atomFirstWord, hb2] at h
        have := atomWord_render d _ w (by simpa using h)
        simp only [firstWordChars]
        simp only [renderAtoms, renderAtom] at this ⊢
        simpa [hb] using this
    | fld n => simp [atomFirstWord] at h

theorem directive_lines (d : ConfigData) (as : List Atom) (kw : List Char)
    (expected : List Atom)
    (hnl : ∀ n ∈ atomFields as, '\n' ∉ (fieldText d n).data)
    (hok : (splitAtoms as).all (directiveOk kw expected) = true) :
    ∀ l ∈ splitOnChar '\n' (renderAtoms d as),
      firstWordChars l = kw → l = renderAtoms d expected := by
  intro l hl hw
  rw [splitOnChar_renderAtoms d as hnl, List.mem_map] at hl
  obtain ⟨la, hla, rfl⟩ := hl
  rw [List.all_eq_true] at hok
  have hk := hok la hla
  unfold directiveOk at hk
  cases hfw : atomFirstWord la with
  | none => simp [hfw] at hk
  | some w =>
    have hr := atomFirstWord_render d la w hfw
    rw [hw] at hr
    subst hr
    simp only [hfw, if_true, decide_eq_true_eq] at hk
    rw [hk]

theorem proxyTemplate_checks : templateChecks proxyTemplate = true := by
  decide

theorem localTemplate_checks : templateChecks localTemplate = true := by
  decide

theorem proxyTemplate_blocks :
    containsSub upstreamBlock (templateAtoms proxyTemplate) = true ∧
      containsSub proxyPassDirective (templateAtoms proxyTemplate) = true := by
  decide

theorem hasPrefix_iff {α : Type} [DecidableEq α] (p l : List α) :
    hasPrefix p l = true ↔ ∃ t, l = p ++ t := by
  induction p generalizing l with
  | nil => simp [hasPrefix]
  | cons x xs ih =>
    cases l with
    | nil => simp [hasPrefix]
    | cons y ys =>
      by_cases h : x = y
      · subst h
        simp [hasPrefix, ih]
      · simp only [hasPrefix, h, if_false, List.cons_append, List.cons.injEq]
        constructor
        · intro hf
          exact absurd hf (by simp)
        · rintro ⟨t, ht, _⟩
          exact absurd ht.symm h

theorem containsSub_iff {α : Type} [DecidableEq α] (n l : List α) :
    containsSub n l = true ↔ ∃ pre post, l = pre ++ n ++ post := by
  induction l with
  | nil =>
    simp only [containsSub, hasPrefix_iff]
    constructor
    · rintro ⟨t, ht⟩
      exact ⟨[], t, by simpa using ht⟩
    · rintro ⟨pre, post, h⟩
      have h1 : pre ++ n ++ post = [] := h.symm
      simp only [List.append_eq_nil] at h1
      exact ⟨[], by simp [h1.1.2]⟩
  | cons c cs ih =>
    unfold containsSub
    by_cases hp : hasPrefix n (c :: cs) = true
    · simp only [hp, if_true, true_iff]
      obtain ⟨t, ht⟩ := (hasPrefix_iff _ _).1 hp
      exact ⟨[], t, by simpa using ht⟩
    · have hp2 : hasPrefix n (c :: cs) = false := by simpa using hp
      rw [hp2]
      simp only [Bool.false_eq_true, if_false]
      rw [ih]
      constructor
      · rintro ⟨pre, post, h⟩
        exact ⟨c :: pre, post, by simp [h]⟩
      · rintro ⟨pre, post, h⟩
        cases pre with
        | nil =>
          exfalso
          exact hp ((hasPrefix_iff _ _).2 ⟨post, by simpa using h⟩)
        | cons x xs =>
          simp only [List.cons_append, List.cons.injEq] at h
          exact ⟨xs, post, h.2⟩

theorem renderAtoms_append (d : ConfigData) (a b : List Atom) :
    renderAtoms d (a ++ b) = renderAtoms d a ++ renderAtoms d b := by
  induction a with
  | nil => rfl
  | cons x xs ih => simp [renderAtoms, ih]

theorem renderAtoms_lit (d : ConfigData) (s : String) : renderAtoms d (lit s) = s.data := by
  unfold lit
  induction s.data with
  | nil => rfl
  | cons c cs ih => simp [renderAtoms, renderAtom, ih]

theorem renderAtoms_fld (d : ConfigData) (n : String) :
    renderAtoms d [Atom.fld n] = (fieldText d n).data := by
  simp [renderAtoms, renderAtom]

theorem containsSub_render (d : ConfigData) (needle as : List Atom)
    (h : containsSub needle as = true) :
    containsSub (renderAtoms d needle) (renderAtoms d as) = true := by
  obtain ⟨pre, post, e⟩ := (containsSub_iff _ _).1 h
  rw [containsSub_iff]
  exact ⟨renderAtoms d pre, renderAtoms d post, by rw [e, renderAtoms_append, renderAtoms_append]⟩

theorem render_serverNameDirective (d : ConfigData) :
    renderAtoms d serverNameDirective = ("server_name " ++ d.SiteName ++ ";").data := by
  simp only [serverNameDirective, renderAtoms_append, renderAtoms_lit, renderAtoms_fld,
    String.data_append]
  rfl

theorem render_accessLogDirective (d : ConfigData) :
    renderAtoms d accessLogDirective =
      ("access_log /var/log/nginx/" ++ d.SiteHostName ++ "_access.log;").data := by
  simp only [accessLogDirective, renderAtoms_append, renderAtoms_lit, renderAtoms_fld,
    String.data_append]
  rfl

theorem render_errorLogDirective (d : ConfigData) :
    renderAtoms d errorLogDirective =
      ("error_log /var/log/nginx/" ++ d.SiteHostName ++ "_error.log;").data := by
  simp only [errorLogDirective, renderAtoms_append, renderAtoms_lit, renderAtoms_fld,
    String.data_append]
  rfl

theorem render_upstreamBlock (d : ConfigData) :
    renderAtoms d upstreamBlock =
      ("upstream " ++ d.SiteHostName ++ " \x7b\n    server " ++ d.IPHostName ++ ":" ++
        d.PortUpstream ++ ";\n\x7d").data := by
  simp only [upstreamBlock, renderAtoms_append, renderAtoms_lit, renderAtoms_fld,
    String.data_append]
  rfl

theorem render_proxyPassDirective (d : ConfigData) :
    renderAtoms d proxyPassDirective =
      ("proxy_pass " ++ d.Protocol ++ "://" ++ d.SiteHostName ++ ";").data := by
  simp only [proxyPassDirective, renderAtoms_append, renderAtoms_lit, renderAtoms_fld,
    String.data_append]
  rfl

theorem render_of_checks (d : ConfigData) (siteType : String)
    (hc : templateChecks (selectTemplate siteType) = true) :
    ∃ text, render d siteType = some text ∧
      text.data = renderAtoms d (templateAtoms (selectTemplate siteType)) ∧
      text ≠ "" ∧
      stringsContains text ("server_name " ++ d.SiteName ++ ";") = true ∧
      stringsContains text
        ("access_log /var/log/nginx/" ++ d.SiteHostName ++ "_access.log;") = true ∧
      stringsContains text
        ("error_log /var/log/nginx/" ++ d.SiteHostName ++ "_error.log;") = true ∧
      (NoLineBreak d siteType → ∀ l ∈ textLines text,
        (firstWord l = "server_name" → l = "    server_name " ++ d.SiteName ++ ";") ∧
        (firstWord l = "access_log" →
          l = "    access_log /var/log/nginx/" ++ d.SiteHostName ++ "_access.log;") ∧
        (firstWord l = "error_log" →
          l = "    error_log /var/log/nginx/" ++ d.SiteHostName ++ "_error.log;")) := by
  simp only [templateChecks, Bool.and_eq_true] at hc
  obtain ⟨⟨⟨⟨⟨⟨⟨h1, h2⟩, h3⟩, h4⟩, h5⟩, h6⟩, h7⟩, h8⟩ := hc
  cases hparse : parseTemplate (selectTemplate siteType) with
  | none => simp [hparse] at h1
  | some ps =>
    have hA : templateAtoms (selectTemplate siteType) = pieceAtoms ps := by
      simp [templateAtoms, hparse]
    rw [hA] at h2 h3 h4 h5 h6 h7 h8
    have hknown : ∀ n ∈ atomFields (pieceAtoms ps), n ∈ knownFields := by
      intro n hn
      have := (List.all_eq_true.1 h2) n hn
      simpa using this
    have hexec := executeTemplate_eq d ps "" hknown
    have hdata : ("" : String).data = [] := rfl
    rw [hdata, List.nil_append] at hexec
    have hc1 := containsSub_render d _ _ h3
    have hc2 := containsSub_render d _ _ h4
    have hc3 := containsSub_render d _ _ h5
    rw [render_serverNameDirective] at hc1
    rw [render_accessLogDirective] at hc2
    rw [render_errorLogDirective] at hc3
    refine ⟨⟨renderAtoms d (pieceAtoms ps)⟩, ?_, ?_, ?_, hc1, hc2, hc3, ?_⟩
    · simp [render, hparse, hexec]
    · rw [hA]
    · intro e
      have he : renderAtoms d (pieceAtoms ps) = [] := by
        have := congrArg String.data e
        simpa using this
      rw [he] at hc1
      obtain ⟨pre, post, hpp⟩ := (containsSub_iff _ _).1 hc1
      have h0 := congrArg List.length hpp
      simp [String.data_append] at h0
      omega
    · intro hnl l hl
      have hnl2 : ∀ n ∈ atomFields (pieceAtoms ps), '\n' ∉ (fieldText d n).data := by
        intro n hn
        apply hnl
        rw [hA]
        exact hn
      simp only [textLines, List.mem_map] at hl
      obtain ⟨cs, hcs, rfl⟩ := hl
      have key : ∀ (kw : String) (expected : List Atom) (target : String),
          (splitAtoms (pieceAtoms ps)).all (directiveOk kw.data expected) = true →
          renderAtoms d expected = target.data →
          firstWord ⟨cs⟩ = kw → (⟨cs⟩ : String) = target := by
        intro kw expected target hok hren hfw
        have hfw2 : firstWordChars cs = kw.data := by
          have := congrArg String.data hfw
          simpa [firstWord] using this
        have := directive_lines d (pieceAtoms ps) kw.data expected hnl2 hok cs hcs hfw2
        apply String.ext
        simp [this, hren]
      refine ⟨key "server_name" _ _ h6 ?_, key "access_log" _ _ h7 ?_, key "error_log" _ _ h8 ?_⟩
      · simp only [renderAtoms_append, renderAtoms_lit, render_serverNameDirective,
          String.data_append]
        rfl
      · simp only [renderAtoms_append, renderAtoms_lit, render_accessLogDirective,
          String.data_append]
        rfl
      · simp only [renderAtoms_append, renderAtoms_lit, render_errorLogDirective,
          String.data_append]
        rfl

theorem selectTemplate_checks (siteType : String) :
    templateChecks (selectTemplate siteType) = true := by
  unfold selectTemplate
  split
  · exact proxyTemplate_checks
  · exact localTemplate_checks

/-- C5, as amended: for every record and every site type, rendering succeeds
and returns non-empty text that contains `server_name <SiteName>;`, the
`access_log` and `error_log` directives keyed by `<SiteHostName>`, and for
`proxy` the upstream block `upstream <SiteHostName>` with
`server <IPHostName>:<PortUpstream>;` and `proxy_pass <Protocol>://<SiteHostName>;`.
When no interpolated field contains a line feed, every line whose first word
is `server_name`, `access_log` or `error_log` is exactly that directive, with
the full site name and the short host name respectively. -/
theorem render_spec (d : ConfigData) (siteType : String) :
    ∃ text, render d siteType = some text ∧ text ≠ "" ∧
      stringsContains text ("server_name " ++ d.SiteName ++ ";") = true ∧
      stringsContains text
        ("access_log /var/log/nginx/" ++ d.SiteHostName ++ "_access.log;") = true ∧
      stringsContains text
        ("error_log /var/log/nginx/" ++ d.SiteHostName ++ "_error.log;") = true ∧
      (siteType = "proxy" →
        stringsContains text
          ("upstream " ++ d.SiteHostName ++ " \x7b\n    server " ++ d.IPHostName ++ ":" ++
            d.PortUpstream ++ ";\n\x7d") = true ∧
        stringsContains text
          ("proxy_pass " ++ d.Protocol ++ "://" ++ d.SiteHostName ++ ";") = true) ∧
      (NoLineBreak d siteType → ∀ l ∈ textLines text,
        (firstWord l = "server_name" → l = "    server_name " ++ d.SiteName ++ ";") ∧
        (firstWord l = "access_log" →
          l = "    access_log /var/log/nginx/" ++ d.SiteHostName ++ "_access.log;") ∧
        (firstWord l = "error_log" →
          l = "    error_log /var/log/nginx/" ++ d.SiteHostName ++ "_error.log;")) := by
  obtain ⟨text, hr, hdata, hne, h1, h2, h3, h4⟩ :=
    render_of_checks d siteType (selectTemplate_checks siteType)
  refine ⟨text, hr, hne, h1, h2, h3, ?_, h4⟩
  intro hp
  subst hp
  have hsel : selectTemplate "proxy" = proxyTemplate := rfl
  rw [hsel] at hdata
  have hb1 := containsSub_render d _ _ proxyTemplate_blocks.1
  have hb2 := containsSub_render d _ _ proxyTemplate_blocks.2
  rw [render_upstreamBlock, ← hdata] at hb1
  rw [render_proxyPassDirective, ← hdata] at hb2
  exact ⟨hb1, hb2⟩

theorem noLineBreak_example : NoLineBreak dataEx "proxy" := by
  unfold NoLineBreak
  decide

/-- Witness for C5: the example record (`teste.example.com`, upstream
`192.168.1.100:8080`, `https`) has no line feed in a field; its rendering
has the upstream block and `proxy_pass https://teste;`, and every
`server_name` line is `server_name teste.example.com;`, without the upstream
address. -/
theorem render_spec_witness :
    NoLineBreak dataEx "proxy" ∧
      ∃ text, render dataEx "proxy" = some text ∧
        stringsContains text "upstream teste \x7b\n    server 192.168.1.100:8080;\n\x7d" = true ∧
        stringsContains text "proxy_pass https://teste;" = true ∧
        ∀ l ∈ textLines text, firstWord l = "server_name" →
          l = "    server_name teste.example.com;" ∧ stringsContains l "192.168.1.100" = false := by
  obtain ⟨text, hr, _, _, _, _, hp, hl⟩ := render_spec dataEx "proxy"
  refine ⟨noLineBreak_example, text, hr, (hp rfl).1, (hp rfl).2, ?_⟩
  intro l hmem hw
  have e := ((hl noLineBreak_example) l hmem).1 hw
  have e2 : l = "    server_name teste.example.com;" := e
  subst e2
  exact ⟨rfl, by decide⟩

/-- Counterexample for C5: with a line feed in the upstream port the rendered
text has a `server_name` line that is not `server_name <SiteName>;` but names
the upstream address. -/
theorem render_injected_server_name :
    ∃ text ∈ render dataInj "proxy",
      "    server_name 192.168.1.100;" ∈ textLines text ∧
      firstWord "    server_name 192.168.1.100;" = "server_name" ∧
      "    server_name 192.168.1.100;" ≠ "    server_name " ++ dataInj.SiteName ++ ";" := by
  decide

/-! ## The enable and disable flows -/

theorem filepathClean_ne_empty (s : String) : filepathClean s ≠ "" := by
  unfold filepathClean
  split
  · decide
  · simp only
    split
    · intro e
      have := congrArg String.data e
      simp at this
    · split
      · decide
      · rename_i h
        intro e
        apply h
        have := congrArg String.data e
        simpa using this

theorem filepathJoin3_ne_empty (a c : String) (b : String) (hb : b ≠ "") :
    filepathJoin [a, b, c] ≠ "" := by
  by_cases ha : a = ""
  · simp only [filepathJoin, ha, if_true, hb, if_false]
    exact filepathClean_ne_empty _
  · simp only [filepathJoin, ha, if_false]
    exact filepathClean_ne_empty _

theorem sitesAvailablePath_ne_empty (configDir site : String) :
    sitesAvailablePath configDir site ≠ "" :=
  filepathJoin3_ne_empty _ _ _ (by decide)

theorem sitesEnabledPath_ne_empty (configDir site : String) :
    sitesEnabledPath configDir site ≠ "" :=
  filepathJoin3_ne_empty _ _ _ (by decide)

theorem followLinks_of_not_symlink (fs : FS) (n : Nat) (p : String)
    (h : ∀ t, fs p ≠ .symlink t) : followLinks fs n p = some p := by
  cases n with
  | zero =>
    unfold followLinks
    split
    · rename_i t ht
      exact absurd ht (h t)
    · rfl
  | succ n =>
    unfold followLinks
    split
    · rename_i t ht
      exact absurd ht (h t)
    · rfl

theorem osStat_dir (fs : FS) (p : String) (hp : p ≠ "") (h : fs p = .dir) :
    osStat fs p = .ok true := by
  have hf : followLinks fs maxSymlinks p = some p :=
    followLinks_of_not_symlink fs _ p (by intro t; rw [h]; simp)
  simp [osStat, hp, hf, h]

theorem osStat_file (fs : FS) (p c : String) (hp : p ≠ "") (h : fs p = .file c) :
    osStat fs p = .ok false := by
  have hf : followLinks fs maxSymlinks p = some p :=
    followLinks_of_not_symlink fs _ p (by intro t; rw [h]; simp)
  simp [osStat, hp, hf, h]

theorem FS.set_same (fs : FS) (p : String) (n : Node) : (fs.set p n) p = n := by
  simp [FS.set]

theorem FS.set_other (fs : FS) (p q : String) (n : Node) (h : q ≠ p) : (fs.set p n) q = fs q := by
  simp [FS.set, h]

theorem FS.set_set_restore (fs : FS) (p : String) (n m : Node) (h : fs p = m) :
    (fs.set p n).set p m = fs := by
  funext q
  by_cases hq : q = p
  · subst hq
    simp [FS.set, h]
  · simp [FS.set, hq]

theorem dissite_removes (env : Env) (configDir site : String) (fs : FS) (E target : String)
    (hE : E = filepathJoin [configDir, "sites-enabled", site ++ ".conf"])
    (hstat : osStat fs configDir ≠ .notExist)
    (hlink : fs E = .symlink target) :
    (Dissite.main env { configDir := configDir } [site] fs).fs = fs.set E .absent ∧
    ((∀ s, env.nginxTest s = .ok) → (∀ s, env.reload s = .ok) →
      (Dissite.main env { configDir := configDir } [site] fs).exit = 0) := by
  have hne : E ≠ "" := by rw [hE]; exact sitesEnabledPath_ne_empty configDir site
  have hrm : osRemove fs E = .ok (fs.set E .absent) := by simp [osRemove, hlink]
  have hchk : Dissite.checkSiteEnabled fs E = .ok true := by
    simp [Dissite.checkSiteEnabled, osLstat, hne, hlink]
  subst hE
  simp only [Dissite.main, Bool.false_eq_true, if_false, hstat, hchk, hrm]
  constructor
  · cases env.nginxTest _ <;> simp only []
    cases env.reload _ <;> simp only []
  · intro ht hr
    simp [ht, hr]

theorem ensite_links (env : Env) (configDir site : String) (force : Bool) (fs : FS)
    (stdin : List String) (A E : String)
    (hA : A = filepathJoin [configDir, "sites-available", site ++ ".conf"])
    (hE : E = filepathJoin [configDir, "sites-enabled", site ++ ".conf"])
    (hstat : osStat fs configDir ≠ .notExist)
    (havail : osStat fs A ≠ .notExist)
    (habsent : fs E = .absent)
    (htest : env.nginxTest fs = .ok) :
    (Ensite.main env { configDir := configDir, force := force } [site] fs stdin).fs =
      fs.set E (.symlink A) ∧
    ((∀ s, env.nginxTest s = .ok) → (∀ s, env.reload s = .ok) →
      (Ensite.main env { configDir := configDir, force := force } [site] fs stdin).exit = 0) := by
  have hne : E ≠ "" := by rw [hE]; exact sitesEnabledPath_ne_empty configDir site
  have hchk : Ensite.checkSiteEnabled fs A E = .ok false := by
    simp [Ensite.checkSiteEnabled, osLstat, hne, habsent]
  have hsym : osSymlink fs A E = .ok (fs.set E (.symlink A)) := by
    simp [osSymlink, habsent]
  subst hA hE
  simp only [Ensite.main, Bool.false_eq_true, if_false, hstat, havail, htest, hchk, hsym,
    Ensite.testAndReload]
  constructor
  · cases env.nginxTest _ <;> simp only []
    cases env.reload _ <;> simp only []
  · intro ht hr
    simp [ht, hr]

/-- C9: in an existing configuration directory, from a state with the config
file of a site present and the link enabling it targeting that file, the
disable flow followed by the enable flow, with every config test succeeding,
removes the link and creates it again with the same target: the filesystem
state is the one before the disable (and both flows exit with status 0 when
the reloads succeed too). -/
theorem disable_enable_restores (env : Env) (configDir site content : String) (force : Bool)
    (fs : FS) (stdin : List String)
    (hdir : configDir ≠ "" ∧ fs configDir = .dir)
    (havail : fs (sitesAvailablePath configDir site) = .file content)
    (hlink : fs (sitesEnabledPath configDir site) = .symlink (sitesAvailablePath configDir site))
    (htest : ∀ s, env.nginxTest s = .ok) :
    (Dissite.main env { configDir := configDir } [site] fs).fs
        (sitesEnabledPath configDir site) = .absent ∧
    (Ensite.main env { configDir := configDir, force := force } [site]
        (Dissite.main env { configDir := configDir } [site] fs).fs stdin).fs
        (sitesEnabledPath configDir site) = .symlink (sitesAvailablePath configDir site) ∧
    (Ensite.main env { configDir := configDir, force := force } [site]
        (Dissite.main env { configDir := configDir } [site] fs).fs stdin).fs = fs ∧
    ((∀ s, env.reload s = .ok) →
      (Dissite.main env { configDir := configDir } [site] fs).exit = 0 ∧
      (Ensite.main env { configDir := configDir, force := force } [site]
        (Dissite.main env { configDir := configDir } [site] fs).fs stdin).exit = 0) := by
  have hA := sitesAvailablePath_ne_empty configDir site
  have hAE : sitesAvailablePath configDir site ≠ sitesEnabledPath configDir site := by
    intro e
    rw [e, hlink] at havail
    simp at havail
  have hCE : configDir ≠ sitesEnabledPath configDir site := by
    intro e
    have := hdir.2
    rw [e, hlink] at this
    simp at this
  have hstat0 : osStat fs configDir ≠ .notExist := by
    rw [osStat_dir fs _ hdir.1 hdir.2]
    simp
  obtain ⟨hfs1, hex1⟩ := dissite_removes env configDir site fs
    (sitesEnabledPath configDir site) _ rfl hstat0 hlink
  rw [hfs1]
  have hs1c : osStat (fs.set (sitesEnabledPath configDir site) .absent) configDir ≠ .notExist := by
    rw [osStat_dir _ _ hdir.1 (by rw [FS.set_other _ _ _ _ hCE]; exact hdir.2)]
    simp
  have hs1a : osStat (fs.set (sitesEnabledPath configDir site) .absent)
      (sitesAvailablePath configDir site) ≠ .notExist := by
    rw [osStat_file _ _ content hA (by rw [FS.set_other _ _ _ _ hAE]; exact havail)]
    simp
  obtain ⟨hfs2, hex2⟩ := ensite_links env configDir site force
    (fs.set (sitesEnabledPath configDir site) .absent) stdin
    (sitesAvailablePath configDir site) (sitesEnabledPath configDir site) rfl rfl hs1c hs1a
    (FS.set_same _ _ _) (htest _)
  have hrestore := FS.set_set_restore fs (sitesEnabledPath configDir site) .absent _ hlink
  rw [hfs2, hrestore]
  exact ⟨FS.set_same _ _ _, hlink, rfl, fun hr => ⟨hex1 htest hr, hex2 htest hr⟩⟩

/-- Witness for C9: site `teste` in `/etc/nginx`, enabled, is disabled and
enabled again. -/
theorem disable_enable_restores_witness :
    (("/etc/nginx" : String) ≠ "" ∧ fsEnabled "/etc/nginx" = .dir) ∧
    fsEnabled (sitesAvailablePath "/etc/nginx" "teste") = .file "server" ∧
    fsEnabled (sitesEnabledPath "/etc/nginx" "teste") =
      .symlink (sitesAvailablePath "/etc/nginx" "teste") ∧
    (Dissite.main envOk { configDir := "/etc/nginx" } ["teste"] fsEnabled).fs
      (sitesEnabledPath "/etc/nginx" "teste") = .absent ∧
    (Ensite.main envOk { configDir := "/etc/nginx", force := false } ["teste"]
      (Dissite.main envOk { configDir := "/etc/nginx" } ["teste"] fsEnabled).fs []).fs =
        fsEnabled :=
  ⟨by decide, by decide, by decide,
    (disable_enable_restores envOk "/etc/nginx" "teste" "server" false fsEnabled []
      (by decide) (by decide) (by decide) (fun _ => rfl)).1,
    (disable_enable_restores envOk "/etc/nginx" "teste" "server" false fsEnabled []
      (by decide) (by decide) (by decide) (fun _ => rfl)).2.2.1⟩

/-- C8, as amended: when the enabled path holds a link whose cleaned target
differs from the cleaned available path, `checkSiteEnabled` answers "not
enabled"; the enable flow never changes the filesystem and never reloads, does
not end in success unless help was asked, and once past the checks of the
configuration directory, the available file and the first config test it
takes the link-creation branch, where the creation fails because the path is
taken: exit status 4 with "Failed to create symbolic link". -/
theorem enable_conflicting_link (env : Env) (flags : Ensite.Flags) (site : String)
    (rest : List String) (fs : FS) (stdin : List String) (target : String)
    (hlink : fs (sitesEnabledPath flags.configDir site) = .symlink target)
    (hdiff : filepathClean target ≠ filepathClean (sitesAvailablePath flags.configDir site)) :
    Ensite.checkSiteEnabled fs (sitesAvailablePath flags.configDir site)
      (sitesEnabledPath flags.configDir site) = .ok false ∧
    (Ensite.main env flags (site :: rest) fs stdin).fs = fs ∧
    Cmd.reloadNginx ∉ (Ensite.main env flags (site :: rest) fs stdin).cmds ∧
    (flags.help = false → (Ensite.main env flags (site :: rest) fs stdin).exit ≠ 0) ∧
    (flags.help = false → osStat fs flags.configDir ≠ .notExist →
      osStat fs (sitesAvailablePath flags.configDir site) ≠ .notExist →
      env.nginxTest fs = .ok →
      (Ensite.main env flags (site :: rest) fs stdin).exit = 4 ∧
      (Ensite.main env flags (site :: rest) fs stdin).out =
        ["Error: Failed to create symbolic link: " ++
          ("symlink " ++ sitesAvailablePath flags.configDir site ++ " " ++
            sitesEnabledPath flags.configDir site ++ ": file exists") ++ "\n"]) := by
  have hne := sitesEnabledPath_ne_empty flags.configDir site
  have hchk : Ensite.checkSiteEnabled fs (sitesAvailablePath flags.configDir site)
      (sitesEnabledPath flags.configDir site) = .ok false := by
    simp [Ensite.checkSiteEnabled, osLstat, hne, hlink, osReadlink, hdiff]
  have hsym : osSymlink fs (sitesAvailablePath flags.configDir site)
      (sitesEnabledPath flags.configDir site) =
      .error ("symlink " ++ sitesAvailablePath flags.configDir site ++ " " ++
        sitesEnabledPath flags.configDir site ++ ": file exists") := by
    simp [osSymlink, hlink]
  refine ⟨hchk, ?_⟩
  simp only [sitesAvailablePath, sitesEnabledPath] at hchk hsym ⊢
  simp only [Ensite.main, hchk, hsym]
  by_cases hh : flags.help = true
  · simp [hh]
  · simp only [hh, Bool.false_eq_true, if_false]
    by_cases h1 : osStat fs flags.configDir = .notExist
    · simp [h1]
    · simp only [h1, if_false]
      by_cases h2 : osStat fs (filepathJoin [flags.configDir, "sites-available", site ++ ".conf"])
          = .notExist
      · simp [h2]
      · simp only [h2, if_false]
        cases h3 : env.nginxTest fs with
        | ok => simp
        | failed e se => simp

/-- Witness for C8: the link of `teste` points to the config file of another
site; the enable flow leaves the state as it is and exits with status 4. -/
theorem enable_conflicting_link_witness :
    fsConflict (sitesEnabledPath "/etc/nginx" "teste") =
      .symlink "/etc/nginx/sites-available/other.conf" ∧
    filepathClean "/etc/nginx/sites-available/other.conf" ≠
      filepathClean (sitesAvailablePath "/etc/nginx" "teste") ∧
    (Ensite.main envOk {} ["teste"] fsConflict []).fs = fsConflict ∧
    (Ensite.main envOk {} ["teste"] fsConflict []).exit = 4 :=
  ⟨by decide, by decide,
    (enable_conflicting_link envOk {} "teste" [] fsConflict []
      "/etc/nginx/sites-available/other.conf" (by decide) (by decide)).2.1,
    ((enable_conflicting_link envOk {} "teste" [] fsConflict []
      "/etc/nginx/sites-available/other.conf" (by decide) (by decide)).2.2.2.2
        rfl (by decide) (by decide) rfl).1⟩

/-- Counterexample for C8: with a conflicting link `checkSiteEnabled` gives the
same answer as with no link at all, and the flow ends in the failure of the
link creation it attempted. -/
theorem enable_conflicting_link_creation_branch :
    fsConflict (sitesEnabledPath "/etc/nginx" "teste") =
      .symlink "/etc/nginx/sites-available/other.conf" ∧
    Ensite.checkSiteEnabled fsConflict (sitesAvailablePath "/etc/nginx" "teste")
      (sitesEnabledPath "/etc/nginx" "teste") = .ok false ∧
    Ensite.checkSiteEnabled (fsConflict.set (sitesEnabledPath "/etc/nginx" "teste") .absent)
      (sitesAvailablePath "/etc/nginx" "teste") (sitesEnabledPath "/etc/nginx" "teste") =
      .ok false ∧
    (Ensite.main envOk {} ["teste"] fsConflict []).out =
      ["Error: Failed to create symbolic link: symlink /etc/nginx/sites-available/teste.conf /etc/nginx/sites-enabled/teste.conf: file exists\n"] :=
  ⟨by decide, by rfl, by rfl, by decide⟩

/-! ## The create flow -/

theorem render_some (d : ConfigData) (siteType : String) :
    ∃ text ps, render d siteType = some text ∧
      parseTemplate (selectTemplate siteType) = some ps ∧
      executeTemplate ps d "" = (text, true) := by
  obtain ⟨text, hr, _⟩ := render_of_checks d siteType (selectTemplate_checks siteType)
  refine ⟨text, ?_⟩
  unfold render at hr
  cases hp : parseTemplate (selectTemplate siteType) with
  | none => simp [hp] at hr
  | some ps =>
    rw [hp] at hr
    simp only at hr
    refine ⟨ps, ?_, rfl, ?_⟩
    · simp only [render, hp]
      exact hr
    · cases he : executeTemplate ps d "" with
      | mk w ok =>
        rw [he] at hr
        cases ok with
        | true =>
          simp only [Option.some.injEq] at hr
          rw [hr]
        | false => simp at hr

theorem writeConfig_ok (fs : FS) (configPath siteType : String) (data : ConfigData)
    (out : List String) (opened : String) (fs1 : FS)
    (hc : osCreate fs configPath = .ok (opened, fs1)) :
    ∃ text, render data siteType = some text ∧
      Create.writeConfig fs configPath siteType data out =
        .ok (fs1.set opened (.file text),
          out ++ ["Configuration file created: " ++ configPath ++ "\n"]) := by
  obtain ⟨text, ps, hr, hp, he⟩ := render_some data siteType
  exact ⟨text, hr, by simp [Create.writeConfig, hp, hc, he]⟩

theorem writeConfig_error (fs : FS) (configPath siteType : String) (data : ConfigData)
    (out : List String) (e : String) (hc : osCreate fs configPath = .error e) :
    Create.writeConfig fs configPath siteType data out =
      .error ⟨4, fs, out ++ ["Error: Failed to create config file " ++ configPath ++ ": " ++ e
        ++ "\n"], []⟩ := by
  obtain ⟨text, ps, hr, hp, he⟩ := render_some data siteType
  simp [Create.writeConfig, hp, hc]

theorem followLinks_end (fs : FS) (n : Nat) (p q : String) (h : followLinks fs n p = some q) :
    ∀ t, fs q ≠ .symlink t := by
  induction n generalizing p with
  | zero =>
    unfold followLinks at h
    split at h
    · simp at h
    · rename_i hns
      simp only [Option.some.injEq] at h
      subst h
      intro t ht
      exact hns t ht
  | succ n ih =>
    unfold followLinks at h
    split at h
    · exact ih _ h
    · rename_i hns
      simp only [Option.some.injEq] at h
      subst h
      intro t ht
      exact hns t ht

theorem followLinks_set_end (fs : FS) (n : Nat) (p q : String) (node : Node)
    (h : followLinks fs n p = some q) (hnode : ∀ t, node ≠ .symlink t) :
    followLinks (fs.set q node) n p = some q := by
  have hend : ∀ m, followLinks (fs.set q node) m q = some q := by
    intro m
    apply followLinks_of_not_symlink
    intro t
    rw [FS.set_same]
    exact hnode t
  induction n generalizing p with
  | zero =>
    by_cases hpq : p = q
    · subst hpq
      exact hend 0
    · unfold followLinks at h ⊢
      rw [FS.set_other _ _ _ _ hpq]
      exact h
  | succ n ih =>
    by_cases hpq : p = q
    · subst hpq
      exact hend (n + 1)
    · unfold followLinks at h ⊢
      rw [FS.set_other _ _ _ _ hpq]
      cases hfp : fs p with
      | symlink t =>
        rw [hfp] at h
        exact ih _ h
      | absent => rw [hfp] at h; exact h
      | file c => rw [hfp] at h; exact h
      | dir => rw [hfp] at h; exact h
      | noAccess => rw [hfp] at h; exact h

theorem readFile_after_create (fs : FS) (p opened : String) (fs1 : FS) (text : String)
    (hc : osCreate fs p = .ok (opened, fs1)) :
    readFile (fs1.set opened (.file text)) p = some text := by
  unfold osCreate at hc
  cases hf : followLinks fs maxSymlinks p with
  | none => simp [hf] at hc
  | some q =>
    rw [hf] at hc
    simp only at hc
    have hfs1 : opened = q ∧ fs1 = fs.set q (.file "") := by
      split at hc <;> simp at hc
      exact ⟨hc.1.symm, hc.2.symm⟩
    obtain ⟨rfl, rfl⟩ := hfs1
    have h2 : (fs.set opened (.file "")).set opened (.file text) = fs.set opened (.file text) := by
      funext x
      by_cases hx : x = opened <;> simp [FS.set, hx]
    rw [h2]
    have h3 := followLinks_set_end fs maxSymlinks p opened (.file text) hf (by simp)
    simp [readFile, h3, FS.set_same]

theorem readUpstreamHost_hostName (flags : Create.Flags) (c : Create.Collected) :
    (Create.readUpstreamHost flags c).data.SiteHostName = c.data.SiteHostName := by
  unfold Create.readUpstreamHost
  dsimp only
  split_ifs <;> rfl

theorem readUpstreamPort_hostName (flags : Create.Flags) (c : Create.Collected) :
    (Create.readUpstreamPort flags c).data.SiteHostName = c.data.SiteHostName := by
  unfold Create.readUpstreamPort
  split_ifs <;> rfl

theorem readProtocol_hostName (flags : Create.Flags) (c : Create.Collected) :
    (Create.readProtocol flags c).data.SiteHostName = c.data.SiteHostName := by
  unfold Create.readProtocol
  split_ifs <;> rfl

theorem readFullchain_hostName (flags : Create.Flags) (c : Create.Collected) :
    (Create.readFullchain flags c).data.SiteHostName = c.data.SiteHostName := by
  unfold Create.readFullchain
  split_ifs <;> rfl

theorem readPrivkey_hostName (flags : Create.Flags) (c : Create.Collected) :
    (Create.readPrivkey flags c).data.SiteHostName = c.data.SiteHostName := by
  unfold Create.readPrivkey
  split_ifs <;> rfl

theorem readSiteType_hostName (flags : Create.Flags) (c : Create.Collected) :
    (Create.readSiteType flags c).data.SiteHostName = c.data.SiteHostName := by
  unfold Create.readSiteType
  split_ifs <;> rfl

theorem collect_hostName (flags : Create.Flags) (data : ConfigData) (stdin out : List String) :
    (Create.collect flags data stdin out).data.SiteHostName = data.SiteHostName := by
  unfold Create.collect
  simp only [readPrivkey_hostName, readFullchain_hostName]
  split_ifs
  · simp only [readProtocol_hostName, readUpstreamPort_hostName, readUpstreamHost_hostName,
      readSiteType_hostName]
  · simp only [readSiteType_hostName]

theorem prepare_configPath (flags : Create.Flags) (fs : FS) (stdin : List String)
    (configPath : String) (c : Create.Collected)
    (h : Create.prepare flags fs stdin = .ok (configPath, c)) :
    configPath = sitesAvailablePath flags.configDir c.data.SiteHostName := by
  unfold Create.prepare at h
  split_ifs at h
  simp only at h
  split at h
  · split_ifs at h
    simp only [Except.ok.injEq, Prod.mk.injEq] at h
    obtain ⟨h1, h2⟩ := h
    rw [← h2, collect_hostName, ← h1]
    rfl
  · simp only [Except.ok.injEq, Prod.mk.injEq] at h
    obtain ⟨h1, h2⟩ := h
    rw [← h2, collect_hostName, ← h1]
    rfl

theorem main_of_prepare (env : Env) (flags : Create.Flags) (fs : FS) (stdin : List String)
    (configPath : String) (c : Create.Collected)
    (h : Create.prepare flags fs stdin = .ok (configPath, c)) :
    Create.main env flags fs stdin = Create.validateAndWrite env flags fs configPath c := by
  simp [Create.main, h]

theorem validateAndWrite_invalid (env : Env) (flags : Create.Flags) (fs : FS)
    (configPath : String) (c : Create.Collected)
    (hv : validateParams (osStat fs) c.data c.siteType ≠ []) :
    (Create.validateAndWrite env flags fs configPath c).cmds = [] ∧
    (∀ opened fs1, osCreate fs configPath = .ok (opened, fs1) →
      ∃ text, render c.data c.siteType = some text ∧
        Create.validateAndWrite env flags fs configPath c =
          ⟨0, fs1.set opened (.file text),
            c.out ++ ["Configuration file created: " ++ configPath ++ "\n"] ++
              ["Cannot reload Nginx due to the following issues:\n"] ++
              (validateParams (osStat fs) c.data c.siteType).map (fun e => "- " ++ e ++ "\n") ++
              ["Please fix the parameters and use nx2ensite to enable the site.\n"], []⟩) ∧
    (∀ e, osCreate fs configPath = .error e →
      (Create.validateAndWrite env flags fs configPath c).exit = 4 ∧
      (Create.validateAndWrite env flags fs configPath c).fs = fs) := by
  refine ⟨?_, ?_, ?_⟩
  · cases hc : osCreate fs configPath with
    | error e =>
      simp [Create.validateAndWrite, hv, writeConfig_error _ _ _ _ _ _ hc]
    | ok r =>
      obtain ⟨opened, fs1⟩ := r
      obtain ⟨text, _, hw⟩ := writeConfig_ok fs configPath c.siteType c.data c.out opened fs1 hc
      simp [Create.validateAndWrite, hv, hw]
  · intro opened fs1 hc
    obtain ⟨text, hr, hw⟩ := writeConfig_ok fs configPath c.siteType c.data c.out opened fs1 hc
    exact ⟨text, hr, by simp [Create.validateAndWrite, hv, hw]⟩
  · intro e hc
    simp [Create.validateAndWrite, hv, writeConfig_error _ _ _ _ _ _ hc]

theorem missing_cert_violation (stat : String → StatResult) (d : ConfigData) (siteType : String)
    (h1 : d.FullchainPath ≠ "") (h2 : stat d.FullchainPath = .notExist) :
    "Certificate file " ++ d.FullchainPath ++ " does not exist" ∈
      validateParams stat d siteType := by
  rw [validateParams_eq]
  have : certErrors stat d = ["Certificate file " ++ d.FullchainPath ++ " does not exist"] := by
    simp [certErrors, h1, h2]
  simp [this]

theorem missing_key_violation (stat : String → StatResult) (d : ConfigData) (siteType : String)
    (h1 : d.PrivkeyPath ≠ "") (h2 : stat d.PrivkeyPath = .notExist) :
    "Private key file " ++ d.PrivkeyPath ++ " does not exist" ∈
      validateParams stat d siteType := by
  rw [validateParams_eq]
  have : keyErrors stat d = ["Private key file " ++ d.PrivkeyPath ++ " does not exist"] := by
    simp [keyErrors, h1, h2]
  simp [this]

theorem stringsContains_middle (a p b : String) : stringsContains (a ++ p ++ b) p = true := by
  unfold stringsContains
  rw [containsSub_iff]
  exact ⟨a.data, b.data, by simp [String.data_append]⟩

/-- C6, as amended: for every create-flow input that reaches the validation
(`prepare` hands over the config path and the collected record) with a
fullchain or private key path that is non-empty and does not exist, and whose
config file can be created, the violations printed include one whose message
contains that exact path, the complete rendered template of the record is
what is read at `<configDir>/sites-available/<SiteHostName>.conf` afterwards,
and the exit status is 0. -/
theorem create_missing_cert_written (env : Env) (flags : Create.Flags) (fs : FS)
    (stdin : List String) (configPath : String) (c : Create.Collected) (opened : String)
    (fs1 : FS)
    (hprep : Create.prepare flags fs stdin = .ok (configPath, c))
    (hmiss : (c.data.FullchainPath ≠ "" ∧ osStat fs c.data.FullchainPath = .notExist) ∨
      (c.data.PrivkeyPath ≠ "" ∧ osStat fs c.data.PrivkeyPath = .notExist))
    (hcreate : osCreate fs configPath = .ok (opened, fs1)) :
    configPath = sitesAvailablePath flags.configDir c.data.SiteHostName ∧
    (c.data.FullchainPath ≠ "" → osStat fs c.data.FullchainPath = .notExist →
      ∃ m ∈ validateParams (osStat fs) c.data c.siteType,
        stringsContains m c.data.FullchainPath = true ∧
        "- " ++ m ++ "\n" ∈ (Create.main env flags fs stdin).out) ∧
    (c.data.PrivkeyPath ≠ "" → osStat fs c.data.PrivkeyPath = .notExist →
      ∃ m ∈ validateParams (osStat fs) c.data c.siteType,
        stringsContains m c.data.PrivkeyPath = true ∧
        "- " ++ m ++ "\n" ∈ (Create.main env flags fs stdin).out) ∧
    (∃ text, render c.data c.siteType = some text ∧
      readFile (Create.main env flags fs stdin).fs configPath = some text) ∧
    (Create.main env flags fs stdin).exit = 0 := by
  have hviol : validateParams (osStat fs) c.data c.siteType ≠ [] := by
    rcases hmiss with ⟨h1, h2⟩ | ⟨h1, h2⟩
    · exact List.ne_nil_of_mem (missing_cert_violation _ _ _ h1 h2)
    · exact List.ne_nil_of_mem (missing_key_violation _ _ _ h1 h2)
  obtain ⟨text, hr, hmain⟩ :=
    (validateAndWrite_invalid env flags fs configPath c hviol).2.1 opened fs1 hcreate
  rw [main_of_prepare env flags fs stdin configPath c hprep, hmain]
  have hout : ∀ m ∈ validateParams (osStat fs) c.data c.siteType,
      "- " ++ m ++ "\n" ∈
        c.out ++ ["Configuration file created: " ++ configPath ++ "\n"] ++
          ["Cannot reload Nginx due to the following issues:\n"] ++
          (validateParams (osStat fs) c.data c.siteType).map (fun e => "- " ++ e ++ "\n") ++
          ["Please fix the parameters and use nx2ensite to enable the site.\n"] := by
    intro m hm
    simp only [List.mem_append, List.mem_map]
    exact Or.inl (Or.inr ⟨m, hm, rfl⟩)
  refine ⟨prepare_configPath flags fs stdin configPath c hprep, ?_, ?_, ?_, rfl⟩
  · intro h1 h2
    exact ⟨_, missing_cert_violation _ _ _ h1 h2, stringsContains_middle _ _ _, hout _
      (missing_cert_violation _ _ _ h1 h2)⟩
  · intro h1 h2
    exact ⟨_, missing_key_violation _ _ _ h1 h2, stringsContains_middle _ _ _, hout _
      (missing_key_violation _ _ _ h1 h2)⟩
  · exact ⟨text, hr, readFile_after_create fs configPath opened fs1 text hcreate⟩

/-- Witness for C6: batch creation of `teste.example.com` with the fullchain
path `/nope`. -/
theorem create_missing_cert_written_witness :
    Create.prepare flagsMissing fsCerts [] =
      .ok ("/etc/nginx/sites-available/teste.conf", collectedMissing) ∧
    (collectedMissing.data.FullchainPath ≠ "" ∧
      osStat fsCerts collectedMissing.data.FullchainPath = .notExist) ∧
    osCreate fsCerts "/etc/nginx/sites-available/teste.conf" =
      .ok ("/etc/nginx/sites-available/teste.conf",
        fsCerts.set "/etc/nginx/sites-available/teste.conf" (.file "")) ∧
    (∃ text, render collectedMissing.data collectedMissing.siteType = some text ∧
      readFile (Create.main envOk flagsMissing fsCerts []).fs
        "/etc/nginx/sites-available/teste.conf" = some text) ∧
    (Create.main envOk flagsMissing fsCerts []).exit = 0 :=
  ⟨rfl, by decide, rfl,
    (create_missing_cert_written envOk flagsMissing fsCerts []
      "/etc/nginx/sites-available/teste.conf" collectedMissing
      "/etc/nginx/sites-available/teste.conf" _ rfl (Or.inl (by decide)) rfl).2.2.2.1,
    (create_missing_cert_written envOk flagsMissing fsCerts []
      "/etc/nginx/sites-available/teste.conf" collectedMissing
      "/etc/nginx/sites-available/teste.conf" _ rfl (Or.inl (by decide)) rfl).2.2.2.2⟩

/-- Counterexample for C6: the same batch input when the config file already
exists: the flow stops with status 2 and the "already exists" message alone,
reports no violation and leaves the old content, which is not the rendered
template, in place. -/
theorem create_existing_batch_stops :
    flagsMissing.fullchainPath ≠ "" ∧ osStat fsEnabled flagsMissing.fullchainPath = .notExist ∧
    (Create.main envOk flagsMissing fsEnabled []).exit = 2 ∧
    (Create.main envOk flagsMissing fsEnabled []).out =
      ["Error: Configuration file /etc/nginx/sites-available/teste.conf already exists. Remove it or choose a different site name.\n"] ∧
    (Create.main envOk flagsMissing fsEnabled []).fs "/etc/nginx/sites-available/teste.conf" =
      .file "server" ∧
    render collectedMissing.data collectedMissing.siteType ≠ some "server" := by
  decide

theorem getLast?_snoc {α : Type} (l : List α) (x : α) : (l ++ [x]).getLast? = some x := by
  induction l with
  | nil => rfl
  | cons a as ih =>
    cases as with
    | nil => rfl
    | cons b bs =>
      simp only [List.cons_append] at ih ⊢
      rw [List.getLast?_cons_cons]
      exact ih

theorem enableAndReload_cases (env : Env) (fs : FS) (host : String) (out : List String) :
    ((Create.enableAndReload env fs host out).exit = 5 ∧
      (Create.enableAndReload env fs host out).cmds = [.ensite [host]]) ∨
    ((Create.enableAndReload env fs host out).exit = 6 ∧
      (Create.enableAndReload env fs host out).cmds = [.ensite [host], .nginxTest]) ∨
    ((Create.enableAndReload env fs host out).exit = 7 ∧
      (Create.enableAndReload env fs host out).cmds =
        [.ensite [host], .nginxTest, .reloadNginx] ∧
      ∃ e s, env.reload (Create.enableAndReload env fs host out).fs = .failed e s) ∨
    ((Create.enableAndReload env fs host out).exit = 0 ∧
      (Create.enableAndReload env fs host out).cmds =
        [.ensite [host], .nginxTest, .reloadNginx]) := by
  unfold Create.enableAndReload
  by_cases h1 : env.ensiteOnPath = false
  · simp [h1]
  · simp only [h1, if_false]
    by_cases h2 : (Ensite.run env [host] fs []).1.exit = 0
    · simp only [h2, ne_eq, not_true_eq_false, if_false]
      cases h3 : env.nginxTest (Ensite.run env [host] fs []).1.fs with
      | failed e s => simp
      | ok =>
        cases h4 : env.reload (Ensite.run env [host] fs []).1.fs with
        | failed e s => simp [h4]
        | ok => simp
    · simp [h2]

theorem enableAndReload_cmds_ne_nil (env : Env) (fs : FS) (host : String) (out : List String) :
    (Create.enableAndReload env fs host out).cmds ≠ [] := by
  rcases enableAndReload_cases env fs host out with h | h | h | h
  · rw [h.2]; simp
  · rw [h.2]; simp
  · rw [h.2.1]; simp
  · rw [h.2]; simp

theorem enableAndReload_success (env : Env) (fs : FS) (host : String) (out : List String)
    (hcmd : Cmd.reloadNginx ∈ (Create.enableAndReload env fs host out).cmds)
    (hok : env.reload (Create.enableAndReload env fs host out).fs = .ok) :
    (Create.enableAndReload env fs host out).exit = 0 := by
  rcases enableAndReload_cases env fs host out with h | h | h | h
  · rw [h.2] at hcmd; simp at hcmd
  · rw [h.2] at hcmd; simp at hcmd
  · obtain ⟨e, s, hf⟩ := h.2.2
    rw [hf] at hok
    simp at hok
  · exact h.1

theorem validateAndWrite_declined (env : Env) (flags : Create.Flags) (fs : FS)
    (configPath : String) (c : Create.Collected)
    (hv : validateParams (osStat fs) c.data c.siteType = [])
    (hc : ∃ opened fs1, osCreate fs configPath = .ok (opened, fs1))
    (hcmd : (Create.validateAndWrite env flags fs configPath c).cmds = []) :
    (Create.validateAndWrite env flags fs configPath c).exit = 0 := by
  obtain ⟨opened, fs1, hc⟩ := hc
  obtain ⟨text, _, hw⟩ := writeConfig_ok fs configPath c.siteType c.data c.out opened fs1 hc
  simp only [Create.validateAndWrite, hv, ne_eq, not_true_eq_false, if_false, hw] at hcmd ⊢
  split_ifs at hcmd ⊢ <;>
    first
    | rfl
    | exact absurd hcmd (enableAndReload_cmds_ne_nil _ _ _ _)

theorem prepare_cancelled (flags : Create.Flags) (fs : FS) (stdin : List String) (o : Outcome)
    (h : Create.prepare flags fs stdin = .error o)
    (hmsg : "Operation canceled. No changes made.\n" ∈ o.out) : o.exit = 0 := by
  unfold Create.prepare at h
  split_ifs at h
  · simp only [Except.error.injEq] at h
    subst h
    rfl
  · simp only [Except.error.injEq] at h
    subst h
    simp only [List.mem_singleton] at hmsg
    exact absurd hmsg (ne_of_head_ne (by simp [String.data_append]))
  · simp only at h
    split at h
    · split_ifs at h
      · simp only [Except.error.injEq] at h
        subst h
        exfalso
        simp only [List.mem_append, List.mem_singleton] at hmsg
        rcases hmsg with hm | hm
        · unfold Create.readSiteName at hm
          split_ifs at hm
          · simp at hm
          · simp at hm
        · exact absurd hm (ne_of_head_ne (by simp [String.data_append]))
      · simp only [Except.error.injEq] at h
        subst h
        rfl
    · simp at h

/-- C10, as amended: for every create-flow input that reaches the validation
and for which `validateParams` returns at least one violation, the flow starts
none of the enable helper, the config test and the reload, and finishes with
exit status 0 after the list of violations when the config file is written
(status 4 when the file cannot be created).  Status 0 is not a status of its
own: a run that reloads successfully, a run with a valid record that writes
the file and starts no command (the operator declined), and a run stopped by
a cancelled overwrite all finish with status 0 as well. -/
theorem create_invalid_not_activated (env : Env) (flags : Create.Flags) (fs : FS)
    (stdin : List String) (configPath : String) (c : Create.Collected)
    (hprep : Create.prepare flags fs stdin = .ok (configPath, c))
    (hviol : validateParams (osStat fs) c.data c.siteType ≠ []) :
    ((Create.main env flags fs stdin).cmds = [] ∧
      ((∃ opened fs1, osCreate fs configPath = .ok (opened, fs1)) →
        (Create.main env flags fs stdin).exit = 0 ∧
        (Create.main env flags fs stdin).out.getLast? =
          some "Please fix the parameters and use nx2ensite to enable the site.\n") ∧
      ((∃ e, osCreate fs configPath = .error e) → (Create.main env flags fs stdin).exit = 4)) ∧
    (∀ (env1 : Env) (fs1 : FS) (host : String) (out : List String),
      Cmd.reloadNginx ∈ (Create.enableAndReload env1 fs1 host out).cmds →
      env1.reload (Create.enableAndReload env1 fs1 host out).fs = .ok →
      (Create.enableAndReload env1 fs1 host out).exit = 0) ∧
    (∀ (env1 : Env) (flags1 : Create.Flags) (fs1 : FS) (path1 : String)
      (c1 : Create.Collected),
      validateParams (osStat fs1) c1.data c1.siteType = [] →
      (∃ opened fs2, osCreate fs1 path1 = .ok (opened, fs2)) →
      (Create.validateAndWrite env1 flags1 fs1 path1 c1).cmds = [] →
      (Create.validateAndWrite env1 flags1 fs1 path1 c1).exit = 0) ∧
    (∀ (flags1 : Create.Flags) (fs1 : FS) (stdin1 : List String) (o : Outcome),
      Create.prepare flags1 fs1 stdin1 = .error o →
      "Operation canceled. No changes made.\n" ∈ o.out → o.exit = 0) := by
  refine ⟨?_, enableAndReload_success, validateAndWrite_declined, prepare_cancelled⟩
  rw [main_of_prepare env flags fs stdin configPath c hprep]
  obtain ⟨h1, h2, h3⟩ := validateAndWrite_invalid env flags fs configPath c hviol
  refine ⟨h1, ?_, ?_⟩
  · rintro ⟨opened, fs1, hc⟩
    obtain ⟨text, _, hm⟩ := h2 opened fs1 hc
    rw [hm]
    exact ⟨rfl, getLast?_snoc _ _⟩
  · rintro ⟨e, hc⟩
    exact (h3 e hc).1

/-- Witness for C10: batch creation of `teste.example.com` with the fullchain
path `/nope` starts no command and exits with status 0. -/
theorem create_invalid_not_activated_witness :
    Create.prepare flagsMissing fsCerts [] =
      .ok ("/etc/nginx/sites-available/teste.conf", collectedMissing) ∧
    validateParams (osStat fsCerts) collectedMissing.data collectedMissing.siteType ≠ [] ∧
    (Create.main envOk flagsMissing fsCerts []).cmds = [] ∧
    (Create.main envOk flagsMissing fsCerts []).exit = 0 :=
  ⟨rfl, by decide,
    (create_invalid_not_activated envOk flagsMissing fsCerts []
      "/etc/nginx/sites-available/teste.conf" collectedMissing rfl (by decide)).1.1,
    ((create_invalid_not_activated envOk flagsMissing fsCerts []
      "/etc/nginx/sites-available/teste.conf" collectedMissing rfl (by decide)).1.2.1
        ⟨_, _, rfl⟩).1⟩

/-- Counterexample for C10: a run with a violation, a run that ends in full
success, a run in which the operator declines to enable and a run in which
the overwrite is cancelled all finish with exit status 0. -/
theorem create_exit_status_shared :
    (validateParams (osStat fsCerts) collectedMissing.data collectedMissing.siteType ≠ [] ∧
      (Create.main envOk flagsMissing fsCerts []).exit = 0 ∧
      (Create.main envOk flagsMissing fsCerts []).cmds = []) ∧
    ((Create.main envOk flagsValid fsCerts []).exit = 0 ∧
      (Create.main envOk flagsValid fsCerts []).cmds =
        [.ensite ["teste"], .nginxTest, .reloadNginx] ∧
      (Create.main envOk flagsValid fsCerts []).out.getLast? =
        some "Nginx reloaded successfully.\n") ∧
    ((Create.main envOk {} fsCerts stdinDecline).exit = 0 ∧
      (Create.main envOk {} fsCerts stdinDecline).out.getLast? =
        some "Nginx reload skipped. Use nx2ensite to enable the site.\n") ∧
    ((Create.main envOk {} fsEnabled stdinCancel).exit = 0 ∧
      (Create.main envOk {} fsEnabled stdinCancel).out.getLast? =
        some "Operation canceled. No changes made.\n") := by
  decide

/-! ## The enable and disable flows without a site -/

/-- C12, as amended: when `<configDir>/sites-available/<site>.conf` does not
exist, the enable flow (run without the help flag) in an existing
configuration directory fails with the "not found" error and exit status 2;
when the configuration directory itself does not exist it fails before that
with the configuration-directory error and exit status 1.  In both cases no
external command is run, the filesystem state is unchanged and no link is
created at `<configDir>/sites-enabled/<site>.conf`. -/
theorem enable_missing_config (env : Env) (flags : Ensite.Flags) (site : String)
    (rest : List String) (fs : FS) (stdin : List String)
    (hhelp : flags.help = false)
    (hmiss : osStat fs (sitesAvailablePath flags.configDir site) = .notExist) :
    (osStat fs flags.configDir ≠ .notExist →
      Ensite.main env flags (site :: rest) fs stdin =
        ⟨2, fs, ["Error: Configuration file " ++ sitesAvailablePath flags.configDir site ++
          " not found.\n"], []⟩) ∧
    (osStat fs flags.configDir = .notExist →
      Ensite.main env flags (site :: rest) fs stdin =
        ⟨1, fs, ["Error: Configuration directory " ++ flags.configDir ++
          " does not exist.\n"], []⟩) ∧
    (Ensite.main env flags (site :: rest) fs stdin).cmds = [] ∧
    (Ensite.main env flags (site :: rest) fs stdin).fs = fs ∧
    (Ensite.main env flags (site :: rest) fs stdin).fs (sitesEnabledPath flags.configDir site) =
      fs (sitesEnabledPath flags.configDir site) := by
  simp only [sitesAvailablePath, sitesEnabledPath] at hmiss ⊢
  by_cases hdir : osStat fs flags.configDir = .notExist
  · simp [Ensite.main, hhelp, hdir]
  · simp [Ensite.main, hhelp, hdir, hmiss]

/-- Witness for C12: in `/etc/nginx` without any site the enable flow for
`teste` stops with status 2 and leaves the state as it is. -/
theorem enable_missing_config_witness :
    osStat fsCerts (sitesAvailablePath "/etc/nginx" "teste") = .notExist ∧
    osStat fsCerts "/etc/nginx" ≠ .notExist ∧
    (Ensite.main envOk {} ["teste"] fsCerts []).exit = 2 ∧
    (Ensite.main envOk {} ["teste"] fsCerts []).cmds = [] ∧
    (Ensite.main envOk {} ["teste"] fsCerts []).fs = fsCerts :=
  ⟨by decide, by decide,
    congrArg Outcome.exit
      ((enable_missing_config envOk {} "teste" [] fsCerts [] rfl (by decide)).1 (by decide)),
    (enable_missing_config envOk {} "teste" [] fsCerts [] rfl (by decide)).2.2.1,
    (enable_missing_config envOk {} "teste" [] fsCerts [] rfl (by decide)).2.2.2.1⟩

/-- Counterexample for C12: the configuration directory does not exist, so
neither does the config file of the site; the enable flow ends with exit
status 1 and the configuration-directory error, not with the "not found"
error and status 2. -/
theorem enable_missing_config_dir :
    osStat fsEmpty (sitesAvailablePath "/etc/nginx" "teste") = .notExist ∧
    (Ensite.main envOk {} ["teste"] fsEmpty []).exit = 1 ∧
    (Ensite.main envOk {} ["teste"] fsEmpty []).out =
      ["Error: Configuration directory /etc/nginx does not exist.\n"] := by
  decide

theorem dissite_removes_link (env : Env) (flags : Dissite.Flags) (site : String)
    (rest : List String) (fs : FS) (target : String)
    (hhelp : flags.help = false)
    (hstat : osStat fs flags.configDir ≠ .notExist)
    (hlink : fs (sitesEnabledPath flags.configDir site) = .symlink target) :
    (Dissite.main env flags (site :: rest) fs).fs =
        fs.set (sitesEnabledPath flags.configDir site) .absent ∧
      (Dissite.main env flags (site :: rest) fs).exit ≠ 2 := by
  have hne := sitesEnabledPath_ne_empty flags.configDir site
  have hrm : osRemove fs (sitesEnabledPath flags.configDir site) =
      .ok (fs.set (sitesEnabledPath flags.configDir site) .absent) := by
    simp [osRemove, hlink]
  have hchk : Dissite.checkSiteEnabled fs (sitesEnabledPath flags.configDir site) = .ok true := by
    simp [Dissite.checkSiteEnabled, osLstat, hne, hlink]
  simp only [sitesEnabledPath] at hchk hrm ⊢
  simp only [Dissite.main, hhelp, Bool.false_eq_true, if_false, hstat, hchk, hrm]
  cases env.nginxTest _ with
  | failed e s => simp
  | ok =>
    simp only []
    cases env.reload _ <;> simp

/-- C13, as amended: in an existing configuration directory, when nothing is
at `<configDir>/sites-enabled/<site>.conf` (lstat reports not-exist) the
disable flow (run without the help flag) fails with the "not enabled" error
and exit status 2, removes nothing and starts neither the config test nor
the reload; when the configuration directory itself does not exist it fails
before that with exit status 1, equally without removal or command.
Conversely a symbolic link at that path, dangling or not, counts as enabled
and is removed. -/
theorem disable_not_enabled (env : Env) (flags : Dissite.Flags) (site : String)
    (rest : List String) (fs : FS) (hhelp : flags.help = false) :
    (osStat fs flags.configDir ≠ .notExist →
      osLstat fs (sitesEnabledPath flags.configDir site) = .notExist →
      Dissite.main env flags (site :: rest) fs =
        ⟨2, fs, ["Error: Site " ++ site ++
          " is not enabled or the symbolic link does not exist.\n"], []⟩) ∧
    (osStat fs flags.configDir = .notExist →
      Dissite.main env flags (site :: rest) fs =
        ⟨1, fs, ["Error: Configuration directory " ++ flags.configDir ++
          " does not exist.\n"], []⟩) ∧
    (osStat fs flags.configDir ≠ .notExist →
      ∀ target, fs (sitesEnabledPath flags.configDir site) = .symlink target →
        (Dissite.main env flags (site :: rest) fs).fs =
          fs.set (sitesEnabledPath flags.configDir site) .absent ∧
        (Dissite.main env flags (site :: rest) fs).fs (sitesEnabledPath flags.configDir site) =
          .absent ∧
        (Dissite.main env flags (site :: rest) fs).exit ≠ 2) := by
  refine ⟨?_, ?_, ?_⟩
  · intro hdir hl
    simp only [sitesEnabledPath] at hl ⊢
    simp [Dissite.main, hhelp, hdir, Dissite.checkSiteEnabled, hl]
  · intro hdir
    simp [Dissite.main, hhelp, hdir]
  · intro hdir target hlink
    obtain ⟨h1, h2⟩ := dissite_removes_link env flags site rest fs target hhelp hdir hlink
    refine ⟨h1, ?_, h2⟩
    rw [h1]
    exact FS.set_same _ _ _

/-- Witness for C13: in `/etc/nginx` without any site the disable flow for
`teste` stops with status 2 and leaves the state as it is; with a dangling
link for `teste` it removes the link. -/
theorem disable_not_enabled_witness :
    (osStat fsCerts "/etc/nginx" ≠ .notExist ∧
      osLstat fsCerts (sitesEnabledPath "/etc/nginx" "teste") = .notExist ∧
      (Dissite.main envOk {} ["teste"] fsCerts).exit = 2 ∧
      (Dissite.main envOk {} ["teste"] fsCerts).cmds = [] ∧
      (Dissite.main envOk {} ["teste"] fsCerts).fs = fsCerts) ∧
    (fsDangling (sitesEnabledPath "/etc/nginx" "teste") =
        .symlink "/etc/nginx/sites-available/teste.conf" ∧
      osStat fsDangling (sitesEnabledPath "/etc/nginx" "teste") = .notExist ∧
      (Dissite.main envOk {} ["teste"] fsDangling).fs (sitesEnabledPath "/etc/nginx" "teste") =
        .absent) :=
  ⟨⟨by decide, by decide,
      congrArg Outcome.exit
        ((disable_not_enabled envOk {} "teste" [] fsCerts rfl).1 (by decide) (by decide)),
      congrArg Outcome.cmds
        ((disable_not_enabled envOk {} "teste" [] fsCerts rfl).1 (by decide) (by decide)),
      congrArg Outcome.fs
        ((disable_not_enabled envOk {} "teste" [] fsCerts rfl).1 (by decide) (by decide))⟩,
    ⟨by decide, by decide,
      ((disable_not_enabled envOk {} "teste" [] fsDangling rfl).2.2 (by decide)
        "/etc/nginx/sites-available/teste.conf" (by decide)).2.1⟩⟩

/-- Counterexample for C13: the configuration directory does not exist, so
nothing is at the enabled path; the disable flow ends with exit status 1 and
the configuration-directory error, not with the "not enabled" error and
status 2. -/
theorem disable_missing_config_dir :
    osLstat fsEmpty (sitesEnabledPath "/etc/nginx" "teste") = .notExist ∧
    (Dissite.main envOk {} ["teste"] fsEmpty).exit = 1 ∧
    (Dissite.main envOk {} ["teste"] fsEmpty).out =
      ["Error: Configuration directory /etc/nginx does not exist.\n"] := by
  decide

/-! ## Batch mode of the create flow -/

theorem writeConfig_error_exit (fs : FS) (configPath siteType : String) (data : ConfigData)
    (out : List String) (o : Outcome)
    (h : Create.writeConfig fs configPath siteType data out = .error o) : o.exit = 4 := by
  cases hc : osCreate fs configPath with
  | error e =>
    rw [writeConfig_error _ _ _ _ _ _ hc] at h
    simp only [Except.error.injEq] at h
    rw [← h]
  | ok r =>
    obtain ⟨opened, fs1⟩ := r
    obtain ⟨text, _, hw⟩ := writeConfig_ok fs configPath siteType data out opened fs1 hc
    rw [hw] at h
    simp at h

theorem enableAndReload_exit_ne_two (env : Env) (fs : FS) (host : String) (out : List String) :
    (Create.enableAndReload env fs host out).exit ≠ 2 := by
  rcases enableAndReload_cases env fs host out with h | h | h | h
  · rw [h.1]; decide
  · rw [h.1]; decide
  · rw [h.1]; decide
  · rw [h.1]; decide

theorem validateAndWrite_exit_ne_two (env : Env) (flags : Create.Flags) (fs : FS)
    (configPath : String) (c : Create.Collected) :
    (Create.validateAndWrite env flags fs configPath c).exit ≠ 2 := by
  unfold Create.validateAndWrite
  dsimp only
  cases hw : Create.writeConfig fs configPath c.siteType c.data c.out with
  | error o =>
    have := writeConfig_error_exit _ _ _ _ _ _ hw
    split_ifs <;> simp [this]
  | ok r =>
    obtain ⟨fs1, out1⟩ := r
    split_ifs
    · simp
    · exact enableAndReload_exit_ne_two _ _ _ _
    · simp
    · exact enableAndReload_exit_ne_two _ _ _ _

theorem prepare_existing (flags : Create.Flags) (fs : FS) (stdin : List String) (b : Bool)
    (hhelp : flags.help = false) (hdir : osStat fs flags.configDir ≠ .notExist)
    (hex : osStat fs (configPathOf flags stdin) = .ok b) :
    (flags.siteName ≠ "" ∧ flags.siteType ≠ "" ∧
        (flags.fullchainPath ≠ "" ∨ flags.siteType ≠ "proxy") ∧
        (flags.privkeyPath ≠ "" ∨ flags.siteType ≠ "proxy") →
      Create.prepare flags fs stdin =
        .error ⟨2, fs, (Create.readSiteName flags stdin).2.2 ++
          ["Error: Configuration file " ++ configPathOf flags stdin ++
            " already exists. Remove it or choose a different site name.\n"], []⟩) ∧
    (¬ (flags.siteName ≠ "" ∧ flags.siteType ≠ "" ∧
        (flags.fullchainPath ≠ "" ∨ flags.siteType ≠ "proxy") ∧
        (flags.privkeyPath ≠ "" ∨ flags.siteType ≠ "proxy")) →
      (∃ o, Create.prepare flags fs stdin = .error o ∧ o.exit = 0) ∨
      (∃ r, Create.prepare flags fs stdin = .ok r)) := by
  simp only [configPathOf, sitesAvailablePath] at hex ⊢
  constructor
  · intro hc
    simp only [Create.prepare, hhelp, Bool.false_eq_true, if_false, hdir]
    simp only [hex]
    simp [hc]
  · intro hc
    simp only [Create.prepare, hhelp, Bool.false_eq_true, if_false, hdir]
    simp only [hex]
    simp only [hc, decide_False, Bool.false_eq_true, if_false]
    split_ifs
    · exact Or.inl ⟨_, rfl, rfl⟩
    · exact Or.inr ⟨_, rfl⟩

theorem main_exit_two_iff (env : Env) (flags : Create.Flags) (fs : FS) (stdin : List String)
    (b : Bool) (hhelp : flags.help = false) (hdir : osStat fs flags.configDir ≠ .notExist)
    (hex : osStat fs (configPathOf flags stdin) = .ok b) :
    ((Create.main env flags fs stdin).exit = 2 ∧ (Create.main env flags fs stdin).fs = fs) ↔
      (flags.siteName ≠ "" ∧ flags.siteType ≠ "" ∧
        (flags.fullchainPath ≠ "" ∨ flags.siteType ≠ "proxy") ∧
        (flags.privkeyPath ≠ "" ∨ flags.siteType ≠ "proxy")) := by
  obtain ⟨h1, h2⟩ := prepare_existing flags fs stdin b hhelp hdir hex
  constructor
  · rintro ⟨he, _⟩
    by_contra hc
    rcases h2 hc with ⟨o, ho, hz⟩ | ⟨r, hr⟩
    · simp only [Create.main, ho] at he
      omega
    · obtain ⟨cp, c⟩ := r
      simp only [Create.main, hr] at he
      exact validateAndWrite_exit_ne_two _ _ _ _ _ he
  · intro hc
    simp [Create.main, h1 hc]

theorem enableAndReload_out (env : Env) (fs : FS) (host : String) (out : List String) :
    ∃ x xs, (Create.enableAndReload env fs host out).out = out ++ x :: xs ∧
      x ≠ enablePrompt := by
  unfold Create.enableAndReload
  by_cases h1 : env.ensiteOnPath = false
  · simp only [h1, if_true]
    exact ⟨_, _, rfl, ne_of_head_ne (by simp [String.data_append, enablePrompt])⟩
  · simp only [h1, if_false]
    by_cases h2 : (Ensite.run env [host] fs []).1.exit = 0
    · simp only [h2, ne_eq, not_true_eq_false, if_false]
      have hx : "Site " ++ host ++ " enabled successfully.\n" ≠ enablePrompt :=
        ne_of_head_ne (by simp [String.data_append, enablePrompt])
      cases h3 : env.nginxTest (Ensite.run env [host] fs []).1.fs with
      | failed e s =>
        exact ⟨_, ["Error: Nginx configuration test failed. Details:\n", s ++ "\n"],
          by simp, hx⟩
      | ok =>
        cases h4 : env.reload (Ensite.run env [host] fs []).1.fs with
        | failed e s =>
          exact ⟨_, ["Error: Failed to reload Nginx: " ++ e ++ "\n"], by simp, hx⟩
        | ok => exact ⟨_, ["Nginx reloaded successfully.\n"], by simp, hx⟩
    · simp only [h2, ne_eq, not_false_eq_true, if_true]
      exact ⟨_, _, rfl, ne_of_head_ne (by simp [String.data_append, enablePrompt])⟩

theorem validateAndWrite_prompt (env : Env) (flags : Create.Flags) (fs : FS)
    (configPath : String) (c : Create.Collected) (opened : String) (fs1 : FS)
    (hv : validateParams (osStat fs) c.data c.siteType = [])
    (hc : osCreate fs configPath = .ok (opened, fs1)) :
    ∃ rest, (Create.validateAndWrite env flags fs configPath c).out =
        c.out ++ ["Configuration file created: " ++ configPath ++ "\n"] ++ rest ∧
      (rest.head? ≠ some enablePrompt ↔
        (flags.siteName ≠ "" ∧ flags.siteType ≠ "" ∧
          (flags.fullchainPath ≠ "" ∨ c.siteType ≠ "proxy") ∧
          (flags.privkeyPath ≠ "" ∨ c.siteType ≠ "proxy"))) := by
  obtain ⟨text, _, hw⟩ := writeConfig_ok fs configPath c.siteType c.data c.out opened fs1 hc
  simp only [Create.validateAndWrite, hv, ne_eq, not_true_eq_false, if_false, hw]
  by_cases hb : (flags.siteName ≠ "" ∧ flags.siteType ≠ "" ∧
      (flags.fullchainPath ≠ "" ∨ c.siteType ≠ "proxy") ∧
      (flags.privkeyPath ≠ "" ∨ c.siteType ≠ "proxy"))
  · obtain ⟨x, xs, hx, hne⟩ := enableAndReload_out env (fs1.set opened (.file text))
      c.data.SiteHostName (c.out ++ ["Configuration file created: " ++ configPath ++ "\n"])
    refine ⟨x :: xs, ?_, ?_⟩
    · simp only [ne_eq] at hb
      simp only [hb, not_false_eq_true, and_self, decide_True, if_true]
      simpa using hx
    · simp only [List.head?_cons, ne_eq, Option.some.injEq]
      exact ⟨fun _ => hb, fun _ => hne⟩
  · by_cases hy : toLower (trimSpace (scanLine c.stdin).1) = "y"
    · obtain ⟨x, xs, hx, hne⟩ := enableAndReload_out env (fs1.set opened (.file text))
        c.data.SiteHostName (c.out ++ ["Configuration file created: " ++ configPath ++ "\n"] ++
          ["Do you want to enable the site and reload Nginx? (y/n): "])
      refine ⟨enablePrompt :: x :: xs, ?_, ?_⟩
      · simp only [ne_eq] at hb
        simp only [hb, decide_False, Bool.false_eq_true, if_false, hy, not_true_eq_false]
        simpa [enablePrompt] using hx
      · simp only [List.head?_cons, ne_eq, not_true_eq_false, false_iff]
        exact hb
    · refine ⟨[enablePrompt, "Nginx reload skipped. Use nx2ensite to enable the site.\n"], ?_, ?_⟩
      · simp only [ne_eq] at hb
        simp only [hb, decide_False, Bool.false_eq_true, if_false, hy, not_false_eq_true,
          if_true]
        simp [enablePrompt]
      · simp only [List.head?_cons, ne_eq, not_true_eq_false, false_iff]
        exact hb

theorem readUpstreamHost_siteType (flags : Create.Flags) (c : Create.Collected) :
    (Create.readUpstreamHost flags c).siteType = c.siteType := by
  unfold Create.readUpstreamHost
  dsimp only
  split_ifs <;> rfl

theorem readUpstreamPort_siteType (flags : Create.Flags) (c : Create.Collected) :
    (Create.readUpstreamPort flags c).siteType = c.siteType := by
  unfold Create.readUpstreamPort
  split_ifs <;> rfl

theorem readProtocol_siteType (flags : Create.Flags) (c : Create.Collected) :
    (Create.readProtocol flags c).siteType = c.siteType := by
  unfold Create.readProtocol
  split_ifs <;> rfl

theorem readFullchain_siteType (flags : Create.Flags) (c : Create.Collected) :
    (Create.readFullchain flags c).siteType = c.siteType := by
  unfold Create.readFullchain
  split_ifs <;> rfl

theorem readPrivkey_siteType (flags : Create.Flags) (c : Create.Collected) :
    (Create.readPrivkey flags c).siteType = c.siteType := by
  unfold Create.readPrivkey
  split_ifs <;> rfl

theorem readSiteType_of_flag (flags : Create.Flags) (c : Create.Collected)
    (h : flags.siteType ≠ "") :
    (Create.readSiteType flags c).siteType = toLower flags.siteType := by
  unfold Create.readSiteType
  rw [if_pos h]

theorem collect_siteType (flags : Create.Flags) (data : ConfigData) (stdin out : List String)
    (h : flags.siteType ≠ "") :
    (Create.collect flags data stdin out).siteType = toLower flags.siteType := by
  unfold Create.collect
  simp only [readPrivkey_siteType, readFullchain_siteType]
  split_ifs
  · simp only [readProtocol_siteType, readUpstreamPort_siteType, readUpstreamHost_siteType,
      readSiteType_of_flag flags _ h]
  · simp only [readSiteType_of_flag flags _ h]

theorem prepare_siteType (flags : Create.Flags) (fs : FS) (stdin : List String)
    (configPath : String) (c : Create.Collected)
    (h : Create.prepare flags fs stdin = .ok (configPath, c)) (ht : flags.siteType ≠ "") :
    c.siteType = toLower flags.siteType := by
  unfold Create.prepare at h
  split_ifs at h
  simp only at h
  split at h
  · split_ifs at h
    simp only [Except.ok.injEq, Prod.mk.injEq] at h
    obtain ⟨_, h2⟩ := h
    rw [← h2, collect_siteType _ _ _ _ ht]
  · simp only [Except.ok.injEq, Prod.mk.injEq] at h
    obtain ⟨_, h2⟩ := h
    rw [← h2, collect_siteType _ _ _ _ ht]

theorem main_existing_batch (env : Env) (flags : Create.Flags) (fs : FS) (stdin : List String)
    (b : Bool) (hhelp : flags.help = false) (hdir : osStat fs flags.configDir ≠ .notExist)
    (hex : osStat fs (configPathOf flags stdin) = .ok b)
    (hb : flags.siteName ≠ "" ∧ flags.siteType ≠ "" ∧
        (flags.fullchainPath ≠ "" ∨ flags.siteType ≠ "proxy") ∧
        (flags.privkeyPath ≠ "" ∨ flags.siteType ≠ "proxy")) :
    (Create.main env flags fs stdin).out =
        ["Error: Configuration file " ++ configPathOf flags stdin ++
          " already exists. Remove it or choose a different site name.\n"] ∧
      (Create.main env flags fs stdin).cmds = [] := by
  have h1 := (prepare_existing flags fs stdin b hhelp hdir hex).1 hb
  have h2 : (Create.readSiteName flags stdin).2.2 = [] := by
    simp [Create.readSiteName, hb.1]
  simp [Create.main, h1, h2]

/-- C11, as amended: for every combination of flags in which the site kind,
if it spells proxy, is written in lower case (without the help flag, in an
existing configuration directory), the create flow treats the run as batch
whenever every required parameter was supplied by flag, and treats it as
batch only if the site name and the site kind were supplied by flag and, for
a proxy site, both certificate paths were too; for a site kind that is not
proxy the site name and site kind flags alone make the run batch.  Batch
treatment is, when the config file already exists, the exit with status 2
that leaves the filesystem as it is, which comes with the already-exists
error and without any command run, and, after a valid record was written,
the absence of the confirmation prompt before enabling.  A proxy site is one
whose site kind flag reads proxy once in lower case, in both treatments. -/
theorem create_batch_mode (env : Env) (flags : Create.Flags) (fs : FS) (stdin : List String)
    (hhelp : flags.help = false) (hdir : osStat fs flags.configDir ≠ .notExist)
    (hcase : toLower flags.siteType = "proxy" → flags.siteType = "proxy") :
    (∀ b, osStat fs (configPathOf flags stdin) = .ok b →
      (AllRequiredByFlag flags →
        (Create.main env flags fs stdin).exit = 2 ∧ (Create.main env flags fs stdin).fs = fs) ∧
      ((Create.main env flags fs stdin).exit = 2 ∧ (Create.main env flags fs stdin).fs = fs →
        flags.siteName ≠ "" ∧ flags.siteType ≠ "" ∧
          (toLower flags.siteType = "proxy" →
            flags.fullchainPath ≠ "" ∧ flags.privkeyPath ≠ "")) ∧
      (toLower flags.siteType ≠ "proxy" →
        (((Create.main env flags fs stdin).exit = 2 ∧ (Create.main env flags fs stdin).fs = fs) ↔
          flags.siteName ≠ "" ∧ flags.siteType ≠ "")) ∧
      ((Create.main env flags fs stdin).exit = 2 ∧ (Create.main env flags fs stdin).fs = fs →
        (Create.main env flags fs stdin).out =
            ["Error: Configuration file " ++ configPathOf flags stdin ++
              " already exists. Remove it or choose a different site name.\n"] ∧
          (Create.main env flags fs stdin).cmds = [])) ∧
    (∀ configPath c opened fs1,
      Create.prepare flags fs stdin = .ok (configPath, c) →
      validateParams (osStat fs) c.data c.siteType = [] →
      osCreate fs configPath = .ok (opened, fs1) →
      ∃ rest, (Create.main env flags fs stdin).out =
          c.out ++ ["Configuration file created: " ++ configPath ++ "\n"] ++ rest ∧
        (AllRequiredByFlag flags → rest.head? ≠ some enablePrompt) ∧
        (rest.head? ≠ some enablePrompt →
          flags.siteName ≠ "" ∧ flags.siteType ≠ "" ∧
            (toLower flags.siteType = "proxy" →
              flags.fullchainPath ≠ "" ∧ flags.privkeyPath ≠ "")) ∧
        (toLower flags.siteType ≠ "proxy" →
          (rest.head? ≠ some enablePrompt ↔ flags.siteName ≠ "" ∧ flags.siteType ≠ ""))) := by
  constructor
  · intro b hex
    have hiff := main_exit_two_iff env flags fs stdin b hhelp hdir hex
    refine ⟨?_, ?_, ?_, ?_⟩
    · rintro ⟨h1, h2, h3, h4, _⟩
      exact hiff.2 ⟨h1, h2, Or.inl h3, Or.inl h4⟩
    · intro hff
      obtain ⟨h1, h2, h3, h4⟩ := hiff.1 hff
      refine ⟨h1, h2, fun hp => ⟨?_, ?_⟩⟩
      · rcases h3 with h | h
        · exact h
        · exact absurd (hcase hp) h
      · rcases h4 with h | h
        · exact h
        · exact absurd (hcase hp) h
    · intro hnp
      have hne : flags.siteType ≠ "proxy" := by
        intro e
        apply hnp
        rw [e]
        decide
      rw [hiff]
      exact ⟨fun h => ⟨h.1, h.2.1⟩, fun h => ⟨h.1, h.2, Or.inr hne, Or.inr hne⟩⟩
    · intro hff
      exact main_existing_batch env flags fs stdin b hhelp hdir hex (hiff.1 hff)
  · intro configPath c opened fs1 hprep hv hc
    obtain ⟨rest, hout, hiff⟩ := validateAndWrite_prompt env flags fs configPath c opened fs1 hv hc
    rw [main_of_prepare env flags fs stdin configPath c hprep]
    refine ⟨rest, hout, ?_, ?_, ?_⟩
    · rintro ⟨h1, h2, h3, h4, _⟩
      exact hiff.2 ⟨h1, h2, Or.inl h3, Or.inl h4⟩
    · intro hs
      obtain ⟨h1, h2, h3, h4⟩ := hiff.1 hs
      have hst := prepare_siteType flags fs stdin configPath c hprep h2
      refine ⟨h1, h2, fun hp => ⟨?_, ?_⟩⟩
      · rcases h3 with h | h
        · exact h
        · exact absurd (hst.trans hp) h
      · rcases h4 with h | h
        · exact h
        · exact absurd (hst.trans hp) h
    · intro hnp
      rw [hiff]
      constructor
      · exact fun h => ⟨h.1, h.2.1⟩
      · intro h
        have hst := prepare_siteType flags fs stdin configPath c hprep h.2
        have hne : c.siteType ≠ "proxy" := by
          rw [hst]
          exact hnp
        exact ⟨h.1, h.2, Or.inr hne, Or.inr hne⟩

theorem allRequired_flagsValid : AllRequiredByFlag flagsValid := by
  unfold AllRequiredByFlag
  decide

/-- Witness for C11: with every required flag given for the local site
`teste.example.com`, whose config file exists, the create flow exits with
status 2 and leaves the filesystem as it is. -/
theorem create_batch_mode_witness :
    flagsValid.help = false ∧ osStat fsEnabled flagsValid.configDir ≠ .notExist ∧
    (toLower flagsValid.siteType = "proxy" → flagsValid.siteType = "proxy") ∧
    osStat fsEnabled (configPathOf flagsValid []) = .ok false ∧
    AllRequiredByFlag flagsValid ∧
    (Create.main envOk flagsValid fsEnabled []).exit = 2 ∧
    (Create.main envOk flagsValid fsEnabled []).fs = fsEnabled :=
  ⟨rfl, by decide, by decide, by decide, allRequired_flagsValid,
    ((create_batch_mode envOk flagsValid fsEnabled [] rfl (by decide) (by decide)).1 false
      (by decide)).1 allRequired_flagsValid⟩

/-- Counterexample for C11: with only the site name and the site kind `local`
given by flag (no certificate path), the create flow fails fast with status 2
when the config file exists, and goes on to enable without the confirmation
prompt when it does not. -/
theorem create_batch_without_cert_flags :
    ¬ AllRequiredByFlag flagsLocalOnly ∧
    ((Create.main envOk flagsLocalOnly fsEnabled []).exit = 2 ∧
      (Create.main envOk flagsLocalOnly fsEnabled []).out =
        ["Error: Configuration file /etc/nginx/sites-available/teste.conf already exists. Remove it or choose a different site name.\n"] ∧
      (Create.main envOk flagsLocalOnly fsEnabled []).fs "/etc/nginx/sites-available/teste.conf" =
        .file "server") ∧
    (enablePrompt ∉ (Create.main envOk flagsLocalOnly fsCerts []).out ∧
      (Create.main envOk flagsLocalOnly fsCerts []).cmds =
        [.ensite ["teste"], .nginxTest, .reloadNginx] ∧
      (Create.main envOk flagsLocalOnly fsCerts []).exit = 0) := by
  unfold AllRequiredByFlag
  decide

/-- Where the site kind flag spells proxy in upper case, the two batch checks
of the create flow compare different strings (the flag as typed, and the flag
in lower case): with no certificate flag the run fails fast with status 2 when
the config file exists, and asks for confirmation before enabling when it
does not. -/
theorem create_upper_case_proxy_checks :
    ¬ (toLower flagsUpperProxy.siteType = "proxy" → flagsUpperProxy.siteType = "proxy") ∧
    (Create.main envOk flagsUpperProxy fsEnabled []).exit = 2 ∧
    (enablePrompt ∈ (Create.main envOk flagsUpperProxy fsCerts []).out ∧
      (Create.main envOk flagsUpperProxy fsCerts []).cmds = [] ∧
      (Create.main envOk flagsUpperProxy fsCerts []).exit = 0) := by
  decide

/-! ## The create flow in another configuration directory -/

/-- C14, the code at the failing input: the create flow in `/custom/nginx`
with a valid record writes `/custom/nginx/sites-available/teste.conf` and
starts the helper as `nx2ensite teste`, which works on `/etc/nginx`.  With no
site `teste` there the helper fails and the flow ends with exit status 5;
with a site of that name there the helper links that one and the flow ends
in success.  In both runs nothing is created at
`/custom/nginx/sites-enabled/teste.conf`. -/
theorem create_enables_in_default_dir :
    (Create.prepare flagsCustom fsCustom [] =
        .ok ("/custom/nginx/sites-available/teste.conf", collectedCustom) ∧
      validateParams (osStat fsCustom) collectedCustom.data collectedCustom.siteType = []) ∧
    ((Create.main envOk flagsCustom fsCustom []).exit = 5 ∧
      (Create.main envOk flagsCustom fsCustom []).cmds = [.ensite ["teste"]] ∧
      (Create.main envOk flagsCustom fsCustom []).out =
        ["Configuration file created: /custom/nginx/sites-available/teste.conf\n",
          "Error: Failed to enable site with nx2ensite: exit status 2\n", "\n"] ∧
      readFile (Create.main envOk flagsCustom fsCustom []).fs
        "/custom/nginx/sites-available/teste.conf" =
        render collectedCustom.data collectedCustom.siteType ∧
      (Create.main envOk flagsCustom fsCustom []).fs "/custom/nginx/sites-enabled/teste.conf" =
        .absent) ∧
    ((Create.main envOk flagsCustom fsCustomOther []).exit = 0 ∧
      (Create.main envOk flagsCustom fsCustomOther []).fs
        "/custom/nginx/sites-enabled/teste.conf" = .absent ∧
      (Create.main envOk flagsCustom fsCustomOther []).fs "/etc/nginx/sites-enabled/teste.conf" =
        .symlink "/etc/nginx/sites-available/teste.conf") :=
  ⟨⟨rfl, by decide⟩, by decide, by decide⟩

end Nx2
